import Mathlib

/-!
Shallow embedding of the core of the modeStep control surface
(`src/control_surface/`), covering:

* the sysex toggle element (`elements/sysex.py`),
* the hardware component (`hardware.py`),
* the standalone-mode entry/exit sequences (`mappings.py`, `mode.py`),
* the mode history of the main modes component (`mode.py`),
* the key-safety manager and input locks (`elements/elements.py`,
  `elements/input_control.py`),
* the LED light group coalescer (`elements/light.py`),
* the identity/connection supervisor (`__init__.py`).

MIDI output is modelled as an explicit trace of messages; stateful Python
objects become structures passed and returned explicitly.
-/

namespace ModeStep

/-- An outbound MIDI message, as assembled by the control surface: a sysex
byte sequence, a program change (status byte 0xC0), or a control change. -/
inductive MidiMsg where
  | sysex (data : List Nat)
  | pc (program : Int)
  | cc (ccNum value : Nat)
  deriving DecidableEq, Repr

def MidiMsg.isSysex : MidiMsg → Bool
  | .sysex _ => true
  | _ => false

def MidiMsg.isPC : MidiMsg → Bool
  | .pc _ => true
  | _ => false

/-! ## SysexToggleElement (src/control_surface/elements/sysex.py)

The element is configured with on/off message collections and remembers the
last value passed to `set_light` to avoid re-sending messages. -/

structure SysexToggleElement where
  onMessages : List (List Nat)
  offMessages : List (List Nat)
  /-- `_last_value`: the last value passed to `set_light`, `none` initially
  and after `_on_resource_received`. -/
  lastValue : Option Bool
  deriving DecidableEq, Repr

/-- `SysexToggleElement.set_light`: sends the on (resp. off) messages if the
value differs from `_last_value`, then records the value. -/
def SysexToggleElement.setLight (e : SysexToggleElement) (value : Bool) :
    SysexToggleElement × List MidiMsg :=
  let msgs :=
    if some value ≠ e.lastValue then
      (if value then e.onMessages else e.offMessages).map MidiMsg.sysex
    else []
  ({ e with lastValue := some value }, msgs)

/-! ## HardwareComponent (src/control_surface/hardware.py)

`backlight_sysex` and `standalone_sysex` are `ColorSysexControl`s mapped to
`SysexToggleElement`s; assigning to the control's `color` forwards the value
to the bound element's `set_light` (for the nullable backlight control, a
`None` color is not forwarded). `_send_midi` appends to the trace. -/

structure HardwareComponent where
  isEnabled : Bool
  /-- `_standalone_program`. -/
  standaloneProgram : Option Int
  /-- `_backlight` (`none` = unmanaged). -/
  backlight : Option Bool
  /-- `_standalone`. -/
  standalone : Bool
  standaloneSysex : SysexToggleElement
  backlightSysex : SysexToggleElement
  deriving DecidableEq, Repr

/-- `_update_standalone_program`: sends a program change iff the component is
enabled, standalone mode is on, and a program is set. No state change. -/
def HardwareComponent.updateStandaloneProgram (hw : HardwareComponent) :
    List MidiMsg :=
  if hw.isEnabled ∧ hw.standalone then
    match hw.standaloneProgram with
    | some p => [MidiMsg.pc p]
    | none => []
  else []

/-- `_update_standalone`: if enabled, commit `_standalone` to the standalone
sysex element, then run `_update_standalone_program`. -/
def HardwareComponent.updateStandalone (hw : HardwareComponent) :
    HardwareComponent × List MidiMsg :=
  if hw.isEnabled then
    let r := hw.standaloneSysex.setLight hw.standalone
    let hw1 := { hw with standaloneSysex := r.1 }
    (hw1, r.2 ++ hw1.updateStandaloneProgram)
  else (hw, [])

/-- `_update_backlight`: if enabled, commit `_backlight` to the backlight
sysex element; a `none` (unmanaged) color is never sent. -/
def HardwareComponent.updateBacklight (hw : HardwareComponent) :
    HardwareComponent × List MidiMsg :=
  if hw.isEnabled then
    match hw.backlight with
    | none => (hw, [])
    | some b =>
      let r := hw.backlightSysex.setLight b
      ({ hw with backlightSysex := r.1 }, r.2)
  else (hw, [])

/-- The `standalone` property setter. -/
def HardwareComponent.setStandalone (hw : HardwareComponent) (v : Bool) :
    HardwareComponent × List MidiMsg :=
  HardwareComponent.updateStandalone { hw with standalone := v }

/-- The `standalone_program` property setter. -/
def HardwareComponent.setStandaloneProgram (hw : HardwareComponent)
    (p : Option Int) : HardwareComponent × List MidiMsg :=
  let hw1 := { hw with standaloneProgram := p }
  (hw1, hw1.updateStandaloneProgram)

/-- The `backlight` property setter. -/
def HardwareComponent.setBacklight (hw : HardwareComponent) (b : Option Bool) :
    HardwareComponent × List MidiMsg :=
  HardwareComponent.updateBacklight { hw with backlight := b }

/-- The sysex element caches agree with the component's properties. This
holds whenever the enabled component has committed its state (each setter
and `update()` re-establish it), but not e.g. across an element reset. -/
def HardwareComponent.Synced (hw : HardwareComponent) : Prop :=
  hw.standaloneSysex.lastValue = some hw.standalone ∧
  ∀ b, hw.backlight = some b → hw.backlightSysex.lastValue = some b

instance (hw : HardwareComponent) : Decidable hw.Synced := by
  unfold HardwareComponent.Synced
  infer_instance

/-! ## String helpers

Lean's built-in `String.startsWith` / `String.splitOn` / `String.toInt?` are
implemented over byte positions and do not reduce in the kernel, so the
operations needed by the source are defined over the character lists directly:
`strStarts` models Python `str.startswith`, `splitUnderscore` models
`str.split("_")`, and `parseInt` models `int(...)` on decimal literals. -/

def strStarts (s p : String) : Bool := p.data.isPrefixOf s.data

def splitUnderscore : List Char → List (List Char)
  | [] => [[]]
  | c :: rest =>
    let r := splitUnderscore rest
    if c = '_' then [] :: r
    else
      match r with
      | h :: t => (c :: h) :: t
      | [] => [[c]]

def digitVal (c : Char) : Option Nat :=
  if '0' ≤ c ∧ c ≤ '9' then some (c.toNat - '0'.toNat) else none

def parseNat (cs : List Char) : Option Nat :=
  match cs with
  | [] => none
  | _ =>
    cs.foldl
      (fun acc c =>
        match acc, digitVal c with
        | some n, some d => some (n * 10 + d)
        | _, _ => none)
      (some 0)

def parseInt (s : String) : Option Int :=
  match s.data with
  | '-' :: rest => (parseNat rest).map (fun n => -(n : Int))
  | cs => (parseNat cs).map (fun n => (n : Int))

/-! ## Mode names and categories (src/control_surface/mode.py) -/

def DISABLED_MODE_NAME : String := "_disabled"

def STANDALONE_INIT_MODE_NAME : String := "_standalone_init"

def STANDALONE_TRANSITION_MODE_NAME : String := "_standalone_transition"

def MODE_SELECT_MODE_NAME : String := "mode_select"

/-- `MainModeCategory`: mode categories, in enum declaration order. -/
inductive MainModeCategory where
  | device
  | edit_track_controls
  | track_controls
  | standalone
  | mode_select
  | hidden
  | uncategorized
  deriving DecidableEq, Repr

/-- The name-prefix values of the categories, in enum declaration order (the
`uncategorized` member has value `None` and is skipped by the lookup loop). -/
def categoryPrefixes : List (MainModeCategory × String) :=
  [(.device, "device_"),
   (.edit_track_controls, "edit_track_controls_"),
   (.track_controls, "track_controls_"),
   (.standalone, "standalone_"),
   (.mode_select, "mode_select"),
   (.hidden, "_")]

/-- `get_main_mode_category`: `hidden` for `None`, else the first category
whose prefix matches, else `uncategorized`. -/
def getMainModeCategory (name : Option String) : MainModeCategory :=
  match name with
  | none => .hidden
  | some n =>
    match categoryPrefixes.find? (fun p => strStarts n p.2) with
    | some p => p.1
    | none => .uncategorized

/-- `get_index_str`: `name.split("_")[-1]`. -/
def getIndexStr (name : String) : String :=
  ⟨(splitUnderscore name.data).getLastD []⟩

/-- `MainModesComponent.is_transient_mode`. -/
def isTransientMode (name : Option String) : Bool :=
  match name with
  | none => true
  | some n =>
    [MainModeCategory.hidden, .mode_select, .edit_track_controls].contains
      (getMainModeCategory (some n))

/-- `MainModesComponent.is_standalone_mode`. -/
def isStandaloneMode (name : String) : Bool :=
  if name = STANDALONE_INIT_MODE_NAME then true
  else getMainModeCategory (some name) == .standalone

/-! ## Mode history (`MainModesComponent._do_enter_mode`, mode.py) -/

/-- The non-transient mode history tracked by `MainModesComponent`. -/
structure ModeHistory where
  /-- `_current_non_transient_mode`. -/
  currentNonTransientMode : Option String
  /-- `_last_non_transient_mode`. -/
  lastNonTransientMode : Option String
  deriving DecidableEq, Repr

/-- `_do_enter_mode`: a non-transient mode different from the current
non-transient mode rotates the history; everything else leaves it unchanged.
(The timestamp update and the superclass call do not touch the history.) -/
def doEnterMode (name : String) (s : ModeHistory) : ModeHistory :=
  if !(isTransientMode (some name)) then
    if some name ≠ s.currentNonTransientMode then
      { currentNonTransientMode := some name,
        lastNonTransientMode := s.currentNonTransientMode }
    else s
  else s

/-! ## Standalone mode entry/exit (mappings.py `_enter_standalone_mode`) -/

/-- The `set_standalone_program` closure in `_enter_standalone_mode`: assigns
`hardware.standalone_program` only for a non-`None` value that differs from
the property's current value. -/
def setStandaloneProgramDeduped (hw : HardwareComponent) (p : Option Int) :
    HardwareComponent × List MidiMsg :=
  match p with
  | none => (hw, [])
  | some prog =>
    if some prog ≠ hw.standaloneProgram then
      hw.setStandaloneProgram (some prog)
    else (hw, [])

/-- Entering the compound standalone mode built by `_enter_standalone_mode`
(also the body of `_standalone_init`): `set_standalone_program(program)` is
run before `PersistentSetAttributeMode` assigns `standalone = True`.
(The `clear_light_caches` exit hook touches only LED caches.) -/
def enterStandaloneMode (program : Option Int) (hw : HardwareComponent) :
    HardwareComponent × List MidiMsg :=
  let r1 := setStandaloneProgramDeduped hw program
  let r2 := r1.1.setStandalone true
  (r2.1, r1.2 ++ r2.2)

/-- Leaving the compound standalone mode: `PersistentSetAttributeMode` does
nothing on exit, and the exit hook runs
`set_standalone_program(background_program)`. -/
def exitStandaloneMode (backgroundProgram : Option Int)
    (hw : HardwareComponent) : HardwareComponent × List MidiMsg :=
  setStandaloneProgramDeduped hw backgroundProgram

/-! ## Main modes component state (mode.py) and the standalone exit button -/

/-- The slice of `MainModesComponent` state relevant to mode selection. -/
structure MainModesState where
  /-- `selected_mode`. -/
  selectedMode : Option String
  hist : ModeHistory
  /-- `__standalone_transition_is_mode_select`. -/
  transitionIsModeSelect : Bool
  deriving DecidableEq, Repr

/-- Activating a mode (via `selected_mode` assignment or `push_mode`):
the mode becomes selected and `_do_enter_mode` updates the history. -/
def MainModesState.enterMode (m : MainModesState) (name : String) :
    MainModesState :=
  { m with selectedMode := some name, hist := doEnterMode name m.hist }

/-- `__select_mode_or_mode_select`: select the named mode if it exists and
differs from the selected mode, else push the mode select screen. -/
def MainModesState.selectModeOrModeSelect (m : MainModesState)
    (name : Option String) : MainModesState :=
  match name with
  | some n =>
    if some n ≠ m.selectedMode then m.enterMode n
    else m.enterMode MODE_SELECT_MODE_NAME
  | none => m.enterMode MODE_SELECT_MODE_NAME

/-- `select_last_non_transient_mode`. -/
def MainModesState.selectLastNonTransient (m : MainModesState) :
    MainModesState :=
  m.selectModeOrModeSelect m.hist.lastNonTransientMode

/-- The combined state touched by the standalone exit handshake. -/
structure System where
  modes : MainModesState
  hw : HardwareComponent
  deriving DecidableEq, Repr

/-- Pushing `_standalone_transition` from an active user standalone mode:
the standalone compound mode is left first (emitting the background
program change via its exit hook), then the transition mode is entered and
`_prepare_standalone_transition` restarts the delayed finish task. -/
def pushStandaloneTransition (backgroundProgram : Option Int) (sys : System) :
    System × List MidiMsg :=
  let r := exitStandaloneMode backgroundProgram sys.hw
  ({ modes := sys.modes.enterMode STANDALONE_TRANSITION_MODE_NAME,
     hw := r.1 }, r.2)

/-- `_finish_standalone_transition`, run one scheduler tick after the
transition mode was entered: flip `standalone` off, then push the mode
select screen or restore the last non-transient mode. -/
def finishStandaloneTransition (sys : System) : System × List MidiMsg :=
  let r := sys.hw.setStandalone false
  let modes :=
    if sys.modes.transitionIsModeSelect then
      sys.modes.enterMode MODE_SELECT_MODE_NAME
    else sys.modes.selectLastNonTransient
  ({ modes := modes, hw := r.1 }, r.2)

/-- `standalone_exit_button` released immediately (short press): request the
mode select screen and push the transition mode. -/
def standaloneExitReleasedImmediately (backgroundProgram : Option Int)
    (sys : System) : System × List MidiMsg :=
  pushStandaloneTransition backgroundProgram
    { sys with modes := { sys.modes with transitionIsModeSelect := true } }

/-- `standalone_exit_button` released after a long press: if both the last
and current non-transient modes are standalone-category, send the program
change for the last mode directly and swap the history pointers; otherwise
push the transition mode with the mode-select flag cleared. `none` models
the `assert` / `int(...)` failure paths. -/
def standaloneExitReleasedDelayed (backgroundProgram : Option Int)
    (sys : System) : Option (System × List MidiMsg) :=
  if (match sys.modes.hist.lastNonTransientMode with
      | none => false
      | some n => getMainModeCategory (some n) == .standalone) &&
     (match sys.modes.hist.currentNonTransientMode with
      | none => false
      | some n => getMainModeCategory (some n) == .standalone) then
    match sys.modes.hist.lastNonTransientMode with
    | none => none
    | some lastName =>
      match parseInt (getIndexStr lastName) with
      | none => none
      | some idx =>
        let r := sys.hw.setStandaloneProgram (some (idx - 1))
        some
          ({ modes :=
               { sys.modes with
                 hist :=
                   { currentNonTransientMode := some lastName,
                     lastNonTransientMode :=
                       sys.modes.hist.currentNonTransientMode } },
             hw := r.1 }, r.2)
  else
    some (pushStandaloneTransition backgroundProgram
      { sys with modes := { sys.modes with transitionIsModeSelect := false } })

/-! ## Connection supervisor (src/control_surface/__init__.py) -/

/-- The slice of the `modeStep` control surface driving disconnect handling:
the identity flag, the single identity-response timeout task (modelled by
its remaining wait time), the main modes state, and the mode stored for
restoration (`__mode_after_identified`). -/
structure Supervisor where
  isIdentified : Bool
  /-- Remaining wait of `_identity_response_timeout_task`; `none` = killed. -/
  timeoutRemaining : Option Nat
  selectedMode : Option String
  hist : ModeHistory
  /-- `__mode_after_identified`. -/
  modeAfterIdentified : Option String
  deriving DecidableEq, Repr

/-- `__store_state_and_disable`: store the selected mode (when it is truthy
and neither the disabled nor the standalone-init mode), then select the
disabled mode if it is not already selected. Entering `_disabled` (a
hidden, transient mode) leaves the non-transient history unchanged, which
the model routes through `doEnterMode`. -/
def storeStateAndDisable (s : Supervisor) : Supervisor :=
  let s1 :=
    if s.selectedMode ≠ none ∧ s.selectedMode ≠ some DISABLED_MODE_NAME ∧
        s.selectedMode ≠ some STANDALONE_INIT_MODE_NAME then
      { s with modeAfterIdentified := s.selectedMode }
    else s
  if s1.selectedMode ≠ some DISABLED_MODE_NAME then
    { s1 with
      selectedMode := some DISABLED_MODE_NAME,
      hist := doEnterMode DISABLED_MODE_NAME s1.hist }
  else s1

/-- `__on_is_identified_changed_local`: when the identity flag drops, restart
the timeout task with `2 * identity_request_delay`. -/
def onIsIdentifiedChanged (identityRequestDelay : Nat) (b : Bool)
    (s : Supervisor) : Supervisor :=
  { s with
    isIdentified := b,
    timeoutRemaining :=
      if !b then some (2 * identityRequestDelay) else s.timeoutRemaining }

/-- Time passage with no identity response: the timeout task counts down
and, once its wait elapses, fires `_on_identity_response_timeout` (i.e.
`__store_state_and_disable`) exactly once and dies. -/
def Supervisor.elapse (t : Nat) (s : Supervisor) : Supervisor :=
  match s.timeoutRemaining with
  | none => s
  | some r =>
    if t < r then { s with timeoutRemaining := some (r - t) }
    else { storeStateAndDisable s with timeoutRemaining := none }

/-! ## Key safety manager (src/control_surface/elements/elements.py,
src/control_surface/elements/input_control.py)

The manager's `_input_lock_states` dict is modelled as an insertion-ordered
association list; an `InputLock` object's `_is_acquired` flag lives in its
entry. Python `KeyError` / unreachable paths appear as `Option`. -/

structure InputLockState where
  /-- The lock object's `_is_acquired` flag. -/
  isAcquired : Bool
  friendIds : List String
  enemyIds : List String
  deriving DecidableEq, Repr

/-- `KeySafetyStrategy` (`types.py`), a closed literal type. -/
inductive KeySafetyStrategy where
  | all_keys
  | adjacent_lockout
  | single_key
  deriving DecidableEq, Repr

structure KeySafetyManager where
  /-- `_input_lock_states`, in insertion order. -/
  locks : List (String × InputLockState)
  strategy : KeySafetyStrategy
  deriving DecidableEq, Repr

/-- Dict lookup `_input_lock_states[id]` (`none` = `KeyError`). -/
def KeySafetyManager.lookup (m : KeySafetyManager) (id : String) :
    Option InputLockState :=
  (m.locks.find? (fun p => p.1 = id)).map (·.2)

/-- `create_input_lock`: raises `ValueError` when a lock already exists for
the id (before any mutation); otherwise appends a fresh released lock. -/
def KeySafetyManager.createInputLock (m : KeySafetyManager) (id : String)
    (friendIds enemyIds : List String) : Except String KeySafetyManager :=
  if (m.lookup id).isSome then .error ("lock already exists: " ++ id)
  else
    .ok { m with
          locks := m.locks ++ [(id, ⟨false, friendIds, enemyIds⟩)] }

/-- The list comprehension
`[states[enemy_id]["lock"].is_acquired for enemy_id in enemy_ids]`, with
`none` for a `KeyError` on a missing enemy id. -/
def acquiredFlags (m : KeySafetyManager) : List String → Option (List Bool)
  | [] => some []
  | e :: rest =>
    match m.lookup e, acquiredFlags m rest with
    | some st, some bs => some (st.isAcquired :: bs)
    | _, _ => none

/-- `_can_acquire`: strategy dispatch over the lock's stored friend/enemy
sets. The outer lookup models `self._input_lock_states[id]`. -/
def KeySafetyManager.canAcquire (m : KeySafetyManager) (id : String) :
    Option Bool :=
  match m.lookup id with
  | none => none
  | some lockState =>
    match m.strategy with
    | .all_keys => some true
    | .adjacent_lockout =>
      (acquiredFlags m lockState.enemyIds).map
        (fun bs => !(bs.any (fun b => b)))
    | .single_key =>
      some (!(m.locks.any (fun p =>
        p.2.isAcquired && !(p.1 == id) &&
        !(lockState.friendIds.contains p.1))))

/-- Write the lock object's `_is_acquired` flag. -/
def KeySafetyManager.setAcquired (m : KeySafetyManager) (id : String)
    (b : Bool) : KeySafetyManager :=
  { m with
    locks := m.locks.map (fun p =>
      if p.1 = id then (p.1, { p.2 with isAcquired := b }) else p) }

/-- `InputLock.acquire` on the lock with the given id: once acquired it
returns true without change; otherwise `_is_acquired` is set to
`_can_acquire()`'s result, which is returned. -/
def KeySafetyManager.acquire (m : KeySafetyManager) (id : String) :
    Option (KeySafetyManager × Bool) :=
  match m.lookup id with
  | none => none
  | some st =>
    if st.isAcquired then some (m, true)
    else (m.canAcquire id).map (fun b => (m.setAcquired id b, b))

/-- `InputLock.release`. -/
def KeySafetyManager.release (m : KeySafetyManager) (id : String) :
    KeySafetyManager :=
  m.setAcquired id false

/-- One acquire or release call on a named lock. -/
inductive LockOp where
  | acquire (id : String)
  | release (id : String)
  deriving DecidableEq, Repr

def KeySafetyManager.step (m : KeySafetyManager) : LockOp → KeySafetyManager
  | .acquire id =>
    match m.acquire id with
    | some r => r.1
    | none => m
  | .release id => m.release id

def KeySafetyManager.run (m : KeySafetyManager) (ops : List LockOp) :
    KeySafetyManager :=
  ops.foldl KeySafetyManager.step m

/-! ## The 2×5 key grid (`Elements._key_inputs`, elements.py;
`elements/hardware.py` for the constants) -/

def NUM_ROWS : Nat := 2

def NUM_COLS : Nat := 5

/-- The `KeyDirection` enum values (up, right, left, down) in declaration
order. -/
def keyDirections : List Nat := [0, 1, 2, 3]

/-- `_key_safety_manager_lock_id`. -/
def lockId (row col d : Nat) : String :=
  toString row ++ "_" ++ toString col ++ "_" ++ toString d

/-- Python `range(a, b)` over integers. -/
def intRange (a b : Int) : List Int :=
  (List.range (b - a).toNat).map (fun i : Nat => a + (i : Int))

/-- Friend ids of a key: all four direction locks of the same key. -/
def friendIdsFor (row col : Nat) : List String :=
  keyDirections.map (fun d => lockId row col d)

/-- Enemy ids of a key: every direction lock of every in-bounds key in the
8-neighborhood, the key itself excluded (no wrapping). -/
def enemyIdsFor (row col : Nat) : List String :=
  (intRange ((row : Int) - 1) ((row : Int) + 2)).flatMap (fun er =>
    (intRange ((col : Int) - 1) ((col : Int) + 2)).flatMap (fun ec =>
      if 0 ≤ er ∧ er < (NUM_ROWS : Int) ∧ 0 ≤ ec ∧ ec < (NUM_COLS : Int) ∧
          ¬(er = (row : Int) ∧ ec = (col : Int)) then
        keyDirections.map (fun d => lockId er.toNat ec.toNat d)
      else []))

/-- The `create_input_lock` arguments issued while building `_key_inputs`,
in element creation order (row-major, column, then direction). -/
def gridCreationArgs : List (String × List String × List String) :=
  (List.range NUM_ROWS).flatMap (fun r =>
    (List.range NUM_COLS).flatMap (fun c =>
      keyDirections.map (fun d =>
        (lockId r c d, friendIdsFor r c, enemyIdsFor r c))))

/-- The manager produced by running all `create_input_lock` calls on a fresh
manager with the default `all_keys` strategy. -/
def buildGridManager : Except String KeySafetyManager :=
  gridCreationArgs.foldlM
    (fun m e => m.createInputLock e.1 e.2.1 e.2.2)
    { locks := [], strategy := .all_keys }

/-- The grid manager, written out directly (shown below to equal
`buildGridManager`'s result). -/
def gridManager : KeySafetyManager :=
  { locks := gridCreationArgs.map (fun e => (e.1, ⟨false, e.2.1, e.2.2⟩)),
    strategy := .all_keys }

/-- The `strategy` property setter. -/
def KeySafetyManager.setStrategy (m : KeySafetyManager)
    (s : KeySafetyStrategy) : KeySafetyManager :=
  { m with strategy := s }

/-- The grid manager after a per-mode override sets the `adjacent_lockout`
strategy. -/
def gridManagerAdjacent : KeySafetyManager :=
  gridManager.setStrategy .adjacent_lockout

/-- 8-adjacency of two distinct keys on the grid (row and column each
within distance 1). -/
def adjacentKeys (r1 c1 r2 c2 : Nat) : Prop :=
  (r1, c1) ≠ (r2, c2) ∧
    ((r1 : Int) - r2).natAbs ≤ 1 ∧ ((c1 : Int) - c2).natAbs ≤ 1

instance (r1 c1 r2 c2 : Nat) : Decidable (adjacentKeys r1 c1 r2 c2) := by
  unfold adjacentKeys
  infer_instance

/-- Invariant of the grid manager under the `adjacent_lockout` strategy:
the lock table keeps the shape built by `_key_inputs` (every grid lock
present with its friend/enemy sets), the stored enemy relation is
irreflexive and symmetric, and no two acquired locks are enemies. -/
structure GridInv (m : KeySafetyManager) : Prop where
  strat : m.strategy = .adjacent_lockout
  total : ∀ r c d, r < NUM_ROWS → c < NUM_COLS → d ∈ keyDirections →
    ∃ acq, m.lookup (lockId r c d) =
      some ⟨acq, friendIdsFor r c, enemyIdsFor r c⟩
  irrefl : ∀ id st, m.lookup id = some st → id ∉ st.enemyIds
  symm : ∀ id1 st1 id2 st2, m.lookup id1 = some st1 →
    m.lookup id2 = some st2 → id2 ∈ st1.enemyIds → id1 ∈ st2.enemyIds
  noEnemyPair : ∀ id1 st1 id2 st2, m.lookup id1 = some st1 →
    m.lookup id2 = some st2 → st1.isAcquired = true →
    st2.isAcquired = true → id2 ∉ st1.enemyIds

/-! ## Light group (src/control_surface/elements/light.py)

Colors are the `Color` value objects of `colors.py` (equality compares the
triple of modes). A light group member is tracked by its element name; a
`send_color`/`send_deprecated_color` on an element always ends by firing
the `color` event, which the group's listener receives as `_on_color`. -/

inductive LedColor where
  | RED
  | GREEN
  deriving DecidableEq, Repr

inductive LedMode where
  | OFF
  | ON
  | BLINK
  | FAST_BLINK
  | FLASH
  deriving DecidableEq, Repr

structure Color where
  mode : LedMode
  color : LedColor
  accentMode : LedMode
  deriving DecidableEq, Repr

/-- `OFF = Color(LedMode.OFF)` with the default green color and off accent. -/
def OFF : Color := ⟨.OFF, .GREEN, .OFF⟩

/-- `RED_ON = Color(LedMode.ON, LedColor.RED)`. -/
def RED_ON : Color := ⟨.ON, .RED, .OFF⟩

/-- `LightGroup.LightState` for one registered member. -/
structure LightState where
  /-- Last color set by something other than the group (`last_external_color`). -/
  lastExternalColor : Option Color := none
  /-- Last color actually drawn (`last_color`). -/
  lastColor : Option Color := none
  deriving DecidableEq, Repr

/-- A light group: `_light_colors`, keyed by element name in registration
order. The `_is_updating_lights` reentrancy flag is only ever set around
the propagation loop, so it is not part of the persistent state. -/
structure LightGroup where
  lights : List (String × LightState)
  deriving DecidableEq, Repr

/-- `LightGroup.register`: raises on a duplicate name, else appends a state
with null colors. -/
def LightGroup.register (g : LightGroup) (name : String) :
    Except String LightGroup :=
  if (g.lights.lookup name).isSome then
    .error ("duplicate light name: " ++ name)
  else .ok { lights := g.lights ++ [(name, {})] }

/-- `_get_current_color`: the first non-off externally-set color in
registration order, else off. -/
def LightGroup.currentColor (g : LightGroup) : Color :=
  match g.lights.findSome? (fun p =>
      match p.2.lastExternalColor with
      | some c => if c ≠ OFF then some c else none
      | none => none) with
  | some c => c
  | none => OFF

/-- `_on_color` for an externally-triggered color event (reentrancy flag
clear): record the color as drawn and external for the originator, then,
with the flag set, redraw every member whose drawn color differs from the
recomputed group color — each redraw fires `_on_color` again, which only
records `last_color` because the flag is set. Events for unregistered
names cannot occur (listeners exist only for registered lights). -/
def LightGroup.onExternalColor (g : LightGroup) (name : String) (c : Color) :
    LightGroup :=
  if (g.lights.lookup name).isSome then
    let g1 : LightGroup :=
      { lights := g.lights.map (fun p =>
          if p.1 = name then
            (p.1, { lastExternalColor := some c, lastColor := some c })
          else p) }
    let target := g1.currentColor
    { lights := g1.lights.map (fun p =>
        if p.2.lastColor ≠ some target then
          (p.1, { p.2 with lastColor := some target })
        else p) }
  else g

/-- A sequence of external color events applied in order. -/
def LightGroup.runExternal (g : LightGroup)
    (events : List (String × Color)) : LightGroup :=
  events.foldl (fun g e => g.onExternalColor e.1 e.2) g

/-! ## General lemmas about the key safety manager -/

theorem KeySafetyManager.lookup_setAcquired (m : KeySafetyManager)
    (id x : String) (b : Bool) :
    (m.setAcquired id b).lookup x =
      if x = id then
        (m.lookup x).map (fun st => { st with isAcquired := b })
      else m.lookup x := by
  unfold KeySafetyManager.setAcquired KeySafetyManager.lookup
  simp only [List.find?_map]
  have hcomp :
      ((fun p : String × InputLockState => decide (p.1 = x)) ∘
        (fun p : String × InputLockState =>
          if p.1 = id then (p.1, { p.2 with isAcquired := b }) else p)) =
      (fun p : String × InputLockState => decide (p.1 = x)) := by
    funext p
    by_cases h : p.1 = id <;> simp [h]
  rw [hcomp]
  by_cases hx : x = id
  · subst hx
    cases hfind : m.locks.find? (fun p => decide (p.1 = x)) with
    | none => simp
    | some q =>
      have hq : q.1 = x := by
        have := List.find?_some hfind
        simpa using this
      simp [hq]
  · cases hfind : m.locks.find? (fun p => decide (p.1 = x)) with
    | none => simp
    | some q =>
      have hq : q.1 = x := by
        have := List.find?_some hfind
        simpa using this
      have : ¬(q.1 = id) := by
        rw [hq]
        exact hx
      simp [this, hx]

theorem acquiredFlags_any_iff (m : KeySafetyManager) (l : List String)
    (bs : List Bool) (h : acquiredFlags m l = some bs) :
    (bs.any (fun b => b) = true ↔
      ∃ e ∈ l, ∃ est, m.lookup e = some est ∧ est.isAcquired = true) := by
  induction l generalizing bs with
  | nil =>
    unfold acquiredFlags at h
    cases h
    simp
  | cons e rest ih =>
    unfold acquiredFlags at h
    cases hl : m.lookup e with
    | none => rw [hl] at h; exact absurd h (by simp)
    | some st =>
      rw [hl] at h
      cases hr : acquiredFlags m rest with
      | none => rw [hr] at h; exact absurd h (by simp)
      | some bs0 =>
        rw [hr] at h
        cases h
        constructor
        · intro hany
          rcases (by simpa using hany :
              st.isAcquired = true ∨ bs0.any (fun b => b) = true) with h1 | h1
          · exact ⟨e, by simp, st, hl, h1⟩
          · rcases (ih bs0 hr).mp h1 with ⟨x, hx, xst, hxl, hxa⟩
            exact ⟨x, by simp [hx], xst, hxl, hxa⟩
        · rintro ⟨x, hx, xst, hxl, hxa⟩
          rcases (by simpa using hx : x = e ∨ x ∈ rest) with rfl | hx1
          · rw [hl] at hxl
            cases hxl
            simp [hxa]
          · have := (ih bs0 hr).mpr ⟨x, hx1, xst, hxl, hxa⟩
            simp [this]

/-- C10: `create_input_lock` fails with `ValueError` when a lock already
exists for the id (leaving the lock mapping untouched — no `.ok` state is
produced and the existing entries are unchanged); on a fresh id it succeeds,
the new lock starts released with the given friend/enemy sets, and all other
entries are unchanged. -/
theorem createInputLock_spec (m : KeySafetyManager) (id : String)
    (friendIds enemyIds : List String) :
    ((m.lookup id).isSome = true →
      m.createInputLock id friendIds enemyIds =
        .error ("lock already exists: " ++ id)) ∧
    (m.lookup id = none →
      ∃ m', m.createInputLock id friendIds enemyIds = .ok m' ∧
        m'.lookup id = some ⟨false, friendIds, enemyIds⟩ ∧
        m'.strategy = m.strategy ∧
        ∀ other, other ≠ id → m'.lookup other = m.lookup other) := by
  constructor
  · intro h
    unfold KeySafetyManager.createInputLock
    simp [h]
  · intro h
    unfold KeySafetyManager.createInputLock
    rw [h]
    simp only [Option.isSome_none, Bool.false_eq_true, if_false]
    refine ⟨_, rfl, ?_, rfl, ?_⟩
    · unfold KeySafetyManager.lookup at h ⊢
      simp only [List.find?_append]
      have hnone : m.locks.find? (fun p => decide (p.1 = id)) = none := by
        cases hf : m.locks.find? (fun p => decide (p.1 = id)) with
        | none => rfl
        | some q => rw [hf] at h; exact absurd h (by simp)
      rw [hnone]
      simp
    · intro other hother
      unfold KeySafetyManager.lookup
      simp only [List.find?_append]
      have : List.find? (fun p => decide (p.1 = other))
          [(id, (⟨false, friendIds, enemyIds⟩ : InputLockState))] = none := by
        simp [List.find?, Ne.symm hother]
      rw [this]
      simp

/-- C3: for a not-yet-acquired lock, `acquire()` succeeds under `all_keys`;
under `adjacent_lockout` it returns false iff some enemy lock is acquired;
under `single_key` it returns false iff some lock that is neither the lock
itself nor a friend is acquired; the returned boolean always equals the
lock's resulting `is_acquired` state, an acquired lock keeps returning true
with no state change, and `release()` resets the flag. -/
theorem acquire_spec (m : KeySafetyManager) (id : String)
    (st : InputLockState) (hlook : m.lookup id = some st) :
    (st.isAcquired = true → m.acquire id = some (m, true)) ∧
    (st.isAcquired = false →
      (m.strategy = .all_keys →
        m.acquire id = some (m.setAcquired id true, true)) ∧
      (m.strategy = .adjacent_lockout →
        ∀ bs, acquiredFlags m st.enemyIds = some bs →
          ∃ b, m.acquire id = some (m.setAcquired id b, b) ∧
            (b = false ↔ ∃ e ∈ st.enemyIds, ∃ est,
              m.lookup e = some est ∧ est.isAcquired = true)) ∧
      (m.strategy = .single_key →
        ∃ b, m.acquire id = some (m.setAcquired id b, b) ∧
          (b = false ↔ ∃ p ∈ m.locks, p.2.isAcquired = true ∧ p.1 ≠ id ∧
            p.1 ∉ st.friendIds))) ∧
    (∀ m' b, m.acquire id = some (m', b) →
      ∃ st', m'.lookup id = some st' ∧ st'.isAcquired = b) ∧
    (∃ st', (m.release id).lookup id = some st' ∧ st'.isAcquired = false) := by
  refine ⟨?_, ?_, ?_, ?_⟩
  · intro hacq
    unfold KeySafetyManager.acquire
    rw [hlook]
    simp [hacq]
  · intro hacq
    refine ⟨?_, ?_, ?_⟩
    · intro hstrat
      unfold KeySafetyManager.acquire KeySafetyManager.canAcquire
      rw [hlook, hstrat]
      simp [hacq]
    · intro hstrat bs hflags
      refine ⟨!(bs.any (fun b => b)), ?_, ?_⟩
      · unfold KeySafetyManager.acquire KeySafetyManager.canAcquire
        rw [hlook, hstrat]
        simp [hacq, hflags]
      · rw [← acquiredFlags_any_iff m st.enemyIds bs hflags]
        cases bs.any (fun b => b) <;> simp
    · intro hstrat
      refine ⟨!(m.locks.any (fun p =>
        p.2.isAcquired && !(p.1 == id) && !(st.friendIds.contains p.1))), ?_, ?_⟩
      · unfold KeySafetyManager.acquire KeySafetyManager.canAcquire
        rw [hlook, hstrat]
        simp [hacq]
      · have hiff : (m.locks.any (fun p =>
            p.2.isAcquired && !(p.1 == id) &&
              !(st.friendIds.contains p.1)) = true) ↔
            ∃ p ∈ m.locks, p.2.isAcquired = true ∧ p.1 ≠ id ∧
              p.1 ∉ st.friendIds := by
          rw [List.any_eq_true]
          constructor
          · rintro ⟨p, hp, hpred⟩
            simp only [Bool.and_eq_true, Bool.not_eq_true',
              beq_eq_false_iff_ne, ne_eq] at hpred
            refine ⟨p, hp, hpred.1.1, hpred.1.2, ?_⟩
            intro hmem
            have h2 := hpred.2
            simp [hmem] at h2
          · rintro ⟨p, hp, hpa, hpne, hpnf⟩
            refine ⟨p, hp, ?_⟩
            simp only [Bool.and_eq_true, Bool.not_eq_true',
              beq_eq_false_iff_ne, ne_eq]
            refine ⟨⟨hpa, hpne⟩, ?_⟩
            simpa using hpnf
        rw [← hiff]
        cases m.locks.any (fun p =>
          p.2.isAcquired && !(p.1 == id) &&
            !(st.friendIds.contains p.1)) <;> simp
  · intro m' b hacq2
    unfold KeySafetyManager.acquire at hacq2
    rw [hlook] at hacq2
    by_cases hacq : st.isAcquired = true
    · simp only [hacq, if_true, Option.some.injEq, Prod.mk.injEq] at hacq2
      obtain ⟨rfl, rfl⟩ := hacq2
      exact ⟨st, hlook, hacq⟩
    · simp only [hacq, if_false, Bool.false_eq_true] at hacq2
      rw [Option.map_eq_some'] at hacq2
      obtain ⟨b0, hca, heq⟩ := hacq2
      cases heq
      refine ⟨{ st with isAcquired := b }, ?_, rfl⟩
      rw [KeySafetyManager.lookup_setAcquired]
      simp [hlook]
  · refine ⟨{ st with isAcquired := false }, ?_, rfl⟩
    unfold KeySafetyManager.release
    rw [KeySafetyManager.lookup_setAcquired]
    simp [hlook]

/-! ## Claim theorems: mode history (C5) -/

/-- C5 counterexample: `"transport"` is non-transient, yet entering it while
it is already the current non-transient mode leaves the history unchanged
(`last` stays `"utility"`) instead of rotating `last ← current`. -/
theorem doEnterMode_rotation_counterexample :
    isTransientMode (some "transport") = false ∧
    (doEnterMode "transport"
        { currentNonTransientMode := some "transport",
          lastNonTransientMode := some "utility" }).lastNonTransientMode ≠
      some "transport" ∧
    doEnterMode "transport"
        { currentNonTransientMode := some "transport",
          lastNonTransientMode := some "utility" } =
      { currentNonTransientMode := some "transport",
        lastNonTransientMode := some "utility" } := by
  decide

/-- C5 (amended): entering a mode categorized hidden, mode-select or
edit-track-controls never changes the history; entering any other mode that
differs from the current non-transient mode rotates
`last ← current, current ← entered`; re-entering the current non-transient
mode itself leaves both pointers unchanged. -/
theorem doEnterMode_history (name : String) (s : ModeHistory) :
    (getMainModeCategory (some name) ∈
        [MainModeCategory.hidden, .mode_select, .edit_track_controls] →
      doEnterMode name s = s) ∧
    (getMainModeCategory (some name) ∉
        [MainModeCategory.hidden, .mode_select, .edit_track_controls] →
      (some name ≠ s.currentNonTransientMode →
        (doEnterMode name s).currentNonTransientMode = some name ∧
          (doEnterMode name s).lastNonTransientMode =
            s.currentNonTransientMode) ∧
      (some name = s.currentNonTransientMode → doEnterMode name s = s)) := by
  by_cases hmem : getMainModeCategory (some name) ∈
      [MainModeCategory.hidden, .mode_select, .edit_track_controls]
  · refine ⟨fun _ => ?_, fun h => absurd hmem h⟩
    unfold doEnterMode isTransientMode
    simp [hmem]
  · refine ⟨fun h => absurd h hmem, fun _ => ⟨?_, ?_⟩⟩
    · intro hne
      unfold doEnterMode isTransientMode
      simp [hmem, hne]
    · intro heq
      unfold doEnterMode isTransientMode
      simp [hmem, heq]

/-- C5 witness: instantiates the amended history rotation at a concrete
non-transient entry. -/
theorem doEnterMode_history_witness :
    (getMainModeCategory (some "device_parameters_xy") ∉
        [MainModeCategory.hidden, .mode_select, .edit_track_controls]) ∧
    (some "device_parameters_xy" ≠ (some "transport" : Option String)) ∧
    (doEnterMode "device_parameters_xy"
        { currentNonTransientMode := some "transport",
          lastNonTransientMode := none }).currentNonTransientMode =
      some "device_parameters_xy" ∧
    (doEnterMode "device_parameters_xy"
        { currentNonTransientMode := some "transport",
          lastNonTransientMode := none }).lastNonTransientMode =
      some "transport" := by
  refine ⟨by decide, by decide, ?_⟩
  exact ((doEnterMode_history "device_parameters_xy"
    { currentNonTransientMode := some "transport",
      lastNonTransientMode := none }).2 (by decide)).1 (by decide)

/-! ## Claim theorems: hardware setter idempotence (C2) -/

/-- C2 counterexample: an enabled, in-sync component in standalone mode with
program 5 set; re-assigning `standalone := true` (its current value) emits a
program change, not zero messages. -/
theorem hardware_idempotence_counterexample :
    ({ isEnabled := true, standaloneProgram := some 5, backlight := none,
       standalone := true,
       standaloneSysex := ⟨[[240, 1]], [[240, 2]], some true⟩,
       backlightSysex := ⟨[[240, 3]], [[240, 4]], none⟩ } :
        HardwareComponent).standalone = true ∧
    (({ isEnabled := true, standaloneProgram := some 5, backlight := none,
        standalone := true,
        standaloneSysex := ⟨[[240, 1]], [[240, 2]], some true⟩,
        backlightSysex := ⟨[[240, 3]], [[240, 4]], none⟩ } :
        HardwareComponent).setStandalone true).2 = [MidiMsg.pc 5] ∧
    (({ isEnabled := true, standaloneProgram := some 5, backlight := none,
        standalone := true,
        standaloneSysex := ⟨[[240, 1]], [[240, 2]], some true⟩,
        backlightSysex := ⟨[[240, 3]], [[240, 4]], none⟩ } :
        HardwareComponent).setStandalone true).2 ≠ [] := by
  decide

/-- C2 (amended): with the sysex caches in sync, setting `backlight` to its
current value emits nothing, and setting `standalone` or
`standalone_program` to its current value emits no sysex but re-emits the
current program change exactly when the component is enabled, standalone is
on and a program is set; any program change emitted by a setter happens
while `standalone` is true (and the component enabled). -/
theorem hardware_setter_idempotence (hw : HardwareComponent)
    (hsync : hw.Synced) :
    ((hw.setBacklight hw.backlight).2 = []) ∧
    ((hw.setStandalone hw.standalone).2 = hw.updateStandaloneProgram) ∧
    ((hw.setStandaloneProgram hw.standaloneProgram).2 =
      hw.updateStandaloneProgram) ∧
    (hw.updateStandaloneProgram ≠ [] →
      hw.standalone = true ∧ hw.isEnabled = true ∧
        ∃ p, hw.standaloneProgram = some p ∧
          hw.updateStandaloneProgram = [MidiMsg.pc p]) ∧
    (∀ p m, m ∈ (hw.setStandaloneProgram p).2 →
      hw.standalone = true ∧ m.isPC = true) ∧
    (∀ v m, m ∈ (hw.setStandalone v).2 → m.isPC = true → v = true) := by
  obtain ⟨hs, hb⟩ := hsync
  refine ⟨?_, ?_, ?_, ?_, ?_, ?_⟩
  · show (HardwareComponent.updateBacklight
      { hw with backlight := hw.backlight }).2 = []
    unfold HardwareComponent.updateBacklight
    cases hbl : hw.backlight with
    | none => simp [hbl]
    | some b =>
      by_cases he : hw.isEnabled = true
      · unfold SysexToggleElement.setLight
        simp [hbl, he, hb b hbl]
      · simp [hbl, he]
  · show (HardwareComponent.updateStandalone
      { hw with standalone := hw.standalone }).2 = hw.updateStandaloneProgram
    unfold HardwareComponent.updateStandalone SysexToggleElement.setLight
    by_cases he : hw.isEnabled = true
    · unfold HardwareComponent.updateStandaloneProgram
      simp [he, hs]
    · unfold HardwareComponent.updateStandaloneProgram
      simp [he]
  · show ({ hw with standaloneProgram := hw.standaloneProgram } :
      HardwareComponent).updateStandaloneProgram = hw.updateStandaloneProgram
    rfl
  · intro hne
    unfold HardwareComponent.updateStandaloneProgram at hne ⊢
    by_cases hcond : hw.isEnabled = true ∧ hw.standalone = true
    · cases hp : hw.standaloneProgram with
      | none =>
        rw [if_pos hcond, hp] at hne
        exact absurd rfl hne
      | some p =>
        refine ⟨hcond.2, hcond.1, p, rfl, ?_⟩
        rw [if_pos hcond]
    · rw [if_neg hcond] at hne
      exact absurd rfl hne
  · intro p m hm
    unfold HardwareComponent.setStandaloneProgram
      HardwareComponent.updateStandaloneProgram at hm
    dsimp only at hm
    by_cases hcond : hw.isEnabled = true ∧ hw.standalone = true
    · rw [if_pos hcond] at hm
      refine ⟨hcond.2, ?_⟩
      cases hp : p with
      | none =>
        rw [hp] at hm
        simp at hm
      | some q =>
        rw [hp] at hm
        rcases (by simpa using hm : m = MidiMsg.pc q) with rfl
        rfl
    · rw [if_neg hcond] at hm
      simp at hm
  · intro v m hm hpc
    cases v with
    | true => rfl
    | false =>
      exfalso
      unfold HardwareComponent.setStandalone
        HardwareComponent.updateStandalone SysexToggleElement.setLight
        HardwareComponent.updateStandaloneProgram at hm
      dsimp only at hm
      by_cases he : hw.isEnabled = true
      · rw [if_pos he] at hm
        rcases (by simpa using hm :
            (some false ≠ hw.standaloneSysex.lastValue ∧
              m ∈ hw.standaloneSysex.offMessages.map MidiMsg.sysex)) with
          ⟨-, hmem⟩
        rcases List.mem_map.mp hmem with ⟨d, -, rfl⟩
        exact absurd hpc (by simp [MidiMsg.isPC])
      · rw [if_neg he] at hm
        simp at hm

/-- C2 witness: the amended idempotence applied to a concrete in-sync
component (enabled, hosted, managed backlight on). -/
theorem hardware_setter_idempotence_witness :
    ({ isEnabled := true, standaloneProgram := some 3, backlight := some true,
       standalone := false,
       standaloneSysex := ⟨[[240, 1]], [[240, 2]], some false⟩,
       backlightSysex := ⟨[[240, 3]], [[240, 4]], some true⟩ } :
        HardwareComponent).Synced ∧
    (({ isEnabled := true, standaloneProgram := some 3, backlight := some true,
        standalone := false,
        standaloneSysex := ⟨[[240, 1]], [[240, 2]], some false⟩,
        backlightSysex := ⟨[[240, 3]], [[240, 4]], some true⟩ } :
        HardwareComponent).setBacklight (some true)).2 = [] :=
  ⟨by decide,
    (hardware_setter_idempotence
      { isEnabled := true, standaloneProgram := some 3,
        backlight := some true, standalone := false,
        standaloneSysex := ⟨[[240, 1]], [[240, 2]], some false⟩,
        backlightSysex := ⟨[[240, 3]], [[240, 4]], some true⟩ }
      (by decide)).1⟩

/-! ## Claim theorems: standalone entry ordering (C1) -/

theorem setStandalone_true_trace (hw : HardwareComponent)
    (henabled : hw.isEnabled = true) :
    (hw.setStandalone true).2 =
      (if some true ≠ hw.standaloneSysex.lastValue then
        hw.standaloneSysex.onMessages.map MidiMsg.sysex
      else []) ++
      (match hw.standaloneProgram with
       | some p => [MidiMsg.pc p]
       | none => []) ∧
    (hw.setStandalone true).1.standaloneProgram = hw.standaloneProgram := by
  unfold HardwareComponent.setStandalone HardwareComponent.updateStandalone
    SysexToggleElement.setLight HardwareComponent.updateStandaloneProgram
  constructor
  · simp [henabled]
  · simp [henabled]

theorem setStandaloneProgramDeduped_spec (hw : HardwareComponent)
    (p : Option Int) :
    (setStandaloneProgramDeduped hw p).1.isEnabled = hw.isEnabled ∧
    (setStandaloneProgramDeduped hw p).1.standalone = hw.standalone ∧
    (setStandaloneProgramDeduped hw p).1.standaloneSysex =
      hw.standaloneSysex ∧
    (setStandaloneProgramDeduped hw p).1.standaloneProgram =
      (match p with
       | none => hw.standaloneProgram
       | some q => some q) ∧
    (setStandaloneProgramDeduped hw p).2 =
      (match p with
       | none => []
       | some q =>
         if some q ≠ hw.standaloneProgram ∧ hw.isEnabled = true ∧
             hw.standalone = true then
           [MidiMsg.pc q]
         else []) := by
  cases p with
  | none => exact ⟨rfl, rfl, rfl, rfl, rfl⟩
  | some q =>
    unfold setStandaloneProgramDeduped HardwareComponent.setStandaloneProgram
      HardwareComponent.updateStandaloneProgram
    dsimp only
    by_cases hnew : some q ≠ hw.standaloneProgram
    · rw [if_pos hnew]
      dsimp only
      refine ⟨rfl, rfl, rfl, rfl, ?_⟩
      by_cases hcond : hw.isEnabled = true ∧ hw.standalone = true
      · rw [if_pos hcond, if_pos ⟨hnew, hcond.1, hcond.2⟩]
      · rw [if_neg hcond, if_neg (fun h => hcond ⟨h.2.1, h.2.2⟩)]
    · rw [if_neg hnew]
      refine ⟨rfl, rfl, rfl, ?_, ?_⟩
      · exact (not_not.mp hnew).symm
      · rw [if_neg (fun h => hnew h.1)]

/-- C1: for any activation of the compound standalone-entry mode (including
the `_standalone_init` body) with the hardware component enabled (and the
standalone sysex cache in sync whenever standalone mode is already on), the
emitted trace splits into the standalone-on sysex block (all of it, or
nothing if already committed) followed only by program changes carrying the
newly selected standalone program. -/
theorem enterStandalone_sysex_before_pc (program : Option Int)
    (hw : HardwareComponent) (henabled : hw.isEnabled = true)
    (hsync : hw.standalone = true →
      hw.standaloneSysex.lastValue = some true) :
    ∃ sys pcs, (enterStandaloneMode program hw).2 = sys ++ pcs ∧
      (sys = [] ∨ sys = hw.standaloneSysex.onMessages.map MidiMsg.sysex) ∧
      (∀ m ∈ sys, m.isSysex = true) ∧
      (∀ m ∈ pcs, ∃ q,
        (enterStandaloneMode program hw).1.standaloneProgram = some q ∧
          m = MidiMsg.pc q) := by
  obtain ⟨hE, hS, hX, hP, hT⟩ := setStandaloneProgramDeduped_spec hw program
  obtain ⟨htrace, hprog⟩ :=
    setStandalone_true_trace (setStandaloneProgramDeduped hw program).1
      (by rw [hE]; exact henabled)
  have htot : (enterStandaloneMode program hw).2 =
      (setStandaloneProgramDeduped hw program).2 ++
        ((setStandaloneProgramDeduped hw program).1.setStandalone true).2 :=
    rfl
  have hfinal : (enterStandaloneMode program hw).1.standaloneProgram =
      (setStandaloneProgramDeduped hw program).1.standaloneProgram := hprog
  by_cases hst : hw.standalone = true
  · -- Already in standalone mode: the cache is in sync, so no sysex at all.
    have hlv := hsync hst
    refine ⟨[], (enterStandaloneMode program hw).2, rfl, Or.inl rfl,
      by simp, ?_⟩
    intro m hm
    rw [htot] at hm
    rcases List.mem_append.mp hm with hm1 | hm2
    · rw [hT] at hm1
      cases hq : program with
      | none =>
        rw [hq] at hm1
        simp at hm1
      | some q =>
        rw [hq] at hm1
        dsimp only at hm1
        refine ⟨q, ?_, ?_⟩
        · rw [← hq, hfinal, hP, hq]
        · by_cases hcond : some q ≠ hw.standaloneProgram ∧
              hw.isEnabled = true ∧ hw.standalone = true
          · rw [if_pos hcond] at hm1
            simpa using hm1
          · rw [if_neg hcond] at hm1
            simp at hm1
    · rw [htrace] at hm2
      have hnosys : (if some true ≠
          (setStandaloneProgramDeduped hw program).1.standaloneSysex.lastValue
          then (setStandaloneProgramDeduped hw
            program).1.standaloneSysex.onMessages.map MidiMsg.sysex
          else []) = [] := by
        rw [hX, hlv]
        simp
      rw [hnosys] at hm2
      simp only [List.nil_append] at hm2
      cases hq : (setStandaloneProgramDeduped hw program).1.standaloneProgram
        with
      | none =>
        rw [hq] at hm2
        simp at hm2
      | some q =>
        rw [hq] at hm2
        refine ⟨q, ?_, by simpa using hm2⟩
        rw [hfinal, hq]
  · -- Entering from hosted mode: no program change can precede the flip.
    have ht1 : (setStandaloneProgramDeduped hw program).2 = [] := by
      rw [hT]
      cases hq : program with
      | none => rfl
      | some q =>
        dsimp only
        rw [if_neg (fun h => hst h.2.2)]
    refine ⟨(if some true ≠
        (setStandaloneProgramDeduped hw program).1.standaloneSysex.lastValue
        then (setStandaloneProgramDeduped hw
          program).1.standaloneSysex.onMessages.map MidiMsg.sysex
        else []),
      (match (setStandaloneProgramDeduped hw program).1.standaloneProgram with
       | some p => [MidiMsg.pc p]
       | none => []), ?_, ?_, ?_, ?_⟩
    · rw [htot, ht1, htrace]
      simp
    · rw [hX]
      by_cases hcond : some true ≠ hw.standaloneSysex.lastValue
      · rw [if_pos hcond]
        exact Or.inr rfl
      · rw [if_neg hcond]
        exact Or.inl rfl
    · intro m hm
      by_cases hcond : some true ≠
          (setStandaloneProgramDeduped hw program).1.standaloneSysex.lastValue
      · rw [if_pos hcond] at hm
        rcases List.mem_map.mp hm with ⟨d, -, rfl⟩
        rfl
      · rw [if_neg hcond] at hm
        simp at hm
    · intro m hm
      cases hq : (setStandaloneProgramDeduped hw program).1.standaloneProgram
        with
      | none =>
        rw [hq] at hm
        simp at hm
      | some q =>
        rw [hq] at hm
        refine ⟨q, ?_, by simpa using hm⟩
        rw [hfinal, hq]

/-- C1 witness: entering standalone program 2 on an enabled component in
hosted mode produces the on-sysex block followed by the program change. -/
theorem enterStandalone_sysex_before_pc_witness :
    ({ isEnabled := true, standaloneProgram := none, backlight := none,
       standalone := false,
       standaloneSysex := ⟨[[240, 10], [240, 11]], [[240, 12]], some false⟩,
       backlightSysex := ⟨[[240, 3]], [[240, 4]], none⟩ } :
        HardwareComponent).isEnabled = true ∧
    ∃ sys pcs,
      (enterStandaloneMode (some 2)
        { isEnabled := true, standaloneProgram := none, backlight := none,
          standalone := false,
          standaloneSysex := ⟨[[240, 10], [240, 11]], [[240, 12]], some false⟩,
          backlightSysex := ⟨[[240, 3]], [[240, 4]], none⟩ }).2 =
          sys ++ pcs ∧
      (sys = [] ∨
        sys = [[240, 10], [240, 11]].map MidiMsg.sysex) ∧
      (∀ m ∈ sys, m.isSysex = true) ∧
      (∀ m ∈ pcs, ∃ q,
        (enterStandaloneMode (some 2)
          { isEnabled := true, standaloneProgram := none, backlight := none,
            standalone := false,
            standaloneSysex :=
              ⟨[[240, 10], [240, 11]], [[240, 12]], some false⟩,
            backlightSysex :=
              ⟨[[240, 3]], [[240, 4]], none⟩ }).1.standaloneProgram =
          some q ∧ m = MidiMsg.pc q) :=
  ⟨rfl,
    enterStandalone_sysex_before_pc (some 2)
      { isEnabled := true, standaloneProgram := none, backlight := none,
        standalone := false,
        standaloneSysex := ⟨[[240, 10], [240, 11]], [[240, 12]], some false⟩,
        backlightSysex := ⟨[[240, 3]], [[240, 4]], none⟩ }
      rfl (by decide)⟩

/-- C3 witness: on a two-lock manager under `adjacent_lockout` where the
enemy lock `"b"` is acquired, acquiring `"a"` returns false. -/
theorem acquire_spec_witness :
    (KeySafetyManager.lookup
        { locks := [("a", ⟨false, ["a"], ["b"]⟩), ("b", ⟨true, ["b"], ["a"]⟩)],
          strategy := .adjacent_lockout } "a" = some ⟨false, ["a"], ["b"]⟩) ∧
    ∃ b, KeySafetyManager.acquire
        { locks := [("a", ⟨false, ["a"], ["b"]⟩), ("b", ⟨true, ["b"], ["a"]⟩)],
          strategy := .adjacent_lockout } "a" =
        some (KeySafetyManager.setAcquired
          { locks :=
              [("a", ⟨false, ["a"], ["b"]⟩), ("b", ⟨true, ["b"], ["a"]⟩)],
            strategy := .adjacent_lockout } "a" b, b) ∧
      (b = false ↔ ∃ e ∈ (["b"] : List String), ∃ est,
        KeySafetyManager.lookup
          { locks :=
              [("a", ⟨false, ["a"], ["b"]⟩), ("b", ⟨true, ["b"], ["a"]⟩)],
            strategy := .adjacent_lockout } e = some est ∧
          est.isAcquired = true) :=
  ⟨by decide,
    ((acquire_spec
      { locks := [("a", ⟨false, ["a"], ["b"]⟩), ("b", ⟨true, ["b"], ["a"]⟩)],
        strategy := .adjacent_lockout } "a" ⟨false, ["a"], ["b"]⟩
      (by decide)).2.1 (by decide)).2.1 rfl [true] (by decide)⟩

/-- C10 witness: creating a lock with an existing id fails; creating a fresh
one starts released. -/
theorem createInputLock_spec_witness :
    ((KeySafetyManager.lookup
        { locks := [("a", ⟨false, [], []⟩)], strategy := .all_keys }
        "a").isSome = true) ∧
    (KeySafetyManager.createInputLock
        { locks := [("a", ⟨false, [], []⟩)], strategy := .all_keys }
        "a" [] [] = .error ("lock already exists: " ++ "a")) :=
  ⟨by decide,
    (createInputLock_spec
      { locks := [("a", ⟨false, [], []⟩)], strategy := .all_keys }
      "a" [] []).1 (by decide)⟩

/-! ## Claim theorems: standalone exit paths (C6, C7) -/

theorem doEnterMode_standalone_transition (s : ModeHistory) :
    doEnterMode STANDALONE_TRANSITION_MODE_NAME s = s := by
  have h : isTransientMode (some STANDALONE_TRANSITION_MODE_NAME) = true := by
    decide
  unfold doEnterMode
  rw [h]
  simp

/-- C6 counterexample: an *immediate* (short-press) release of the
standalone exit button while both the current (`standalone_2`) and last
(`standalone_4`) non-transient modes are standalone-category does not take
the fast path: it pushes the transition mode, sending the background
program change (0, not the target's 4 − 1 = 3) and, one tick later, the
hosted-off sysex — so sysex messages are sent and the history pointers are
not swapped, falsifying the claim as stated over every release. -/
theorem standaloneExit_immediate_release_counterexample :
    getMainModeCategory (some "standalone_2") =
      MainModeCategory.standalone ∧
    getMainModeCategory (some "standalone_4") =
      MainModeCategory.standalone ∧
    (standaloneExitReleasedImmediately (some 0)
      { modes :=
          { selectedMode := some "standalone_2",
            hist :=
              { currentNonTransientMode := some "standalone_2",
                lastNonTransientMode := some "standalone_4" },
            transitionIsModeSelect := false },
        hw :=
          { isEnabled := true, standaloneProgram := some 1,
            backlight := none, standalone := true,
            standaloneSysex := ⟨[[240, 1]], [[240, 2]], some true⟩,
            backlightSysex := ⟨[[240, 3]], [[240, 4]], none⟩ } }).2 =
      [MidiMsg.pc 0] ∧
    (MidiMsg.pc 0 ≠ MidiMsg.pc (4 - 1)) ∧
    (finishStandaloneTransition (standaloneExitReleasedImmediately (some 0)
      { modes :=
          { selectedMode := some "standalone_2",
            hist :=
              { currentNonTransientMode := some "standalone_2",
                lastNonTransientMode := some "standalone_4" },
            transitionIsModeSelect := false },
        hw :=
          { isEnabled := true, standaloneProgram := some 1,
            backlight := none, standalone := true,
            standaloneSysex := ⟨[[240, 1]], [[240, 2]], some true⟩,
            backlightSysex := ⟨[[240, 3]], [[240, 4]], none⟩ } }).1).2 =
      [MidiMsg.sysex [240, 2]] ∧
    MidiMsg.isSysex (MidiMsg.sysex [240, 2]) = true ∧
    (finishStandaloneTransition (standaloneExitReleasedImmediately (some 0)
      { modes :=
          { selectedMode := some "standalone_2",
            hist :=
              { currentNonTransientMode := some "standalone_2",
                lastNonTransientMode := some "standalone_4" },
            transitionIsModeSelect := false },
        hw :=
          { isEnabled := true, standaloneProgram := some 1,
            backlight := none, standalone := true,
            standaloneSysex := ⟨[[240, 1]], [[240, 2]], some true⟩,
            backlightSysex := ⟨[[240, 3]], [[240, 4]], none⟩ } }).1).1.modes.selectedMode =
      some MODE_SELECT_MODE_NAME ∧
    (finishStandaloneTransition (standaloneExitReleasedImmediately (some 0)
      { modes :=
          { selectedMode := some "standalone_2",
            hist :=
              { currentNonTransientMode := some "standalone_2",
                lastNonTransientMode := some "standalone_4" },
            transitionIsModeSelect := false },
        hw :=
          { isEnabled := true, standaloneProgram := some 1,
            backlight := none, standalone := true,
            standaloneSysex := ⟨[[240, 1]], [[240, 2]], some true⟩,
            backlightSysex := ⟨[[240, 3]], [[240, 4]], none⟩ } }).1).1.modes.hist.currentNonTransientMode ≠
      some "standalone_4" := by
  decide

/-- C6 (amended): releasing the standalone exit button *after a long press*
(the `released_delayed` handler) while both the current and the target
(last) non-transient modes are standalone-category sends exactly one
program change — the target mode's name index minus one — and zero sysex
messages, swaps the two history pointers, and leaves the selected mode and
the hardware's standalone flag untouched (no hosted round trip). An
immediate release instead always pushes the transition mode toward the
mode-select screen. -/
theorem standaloneExit_standalone_to_standalone (bg : Option Int)
    (sys : System) (lastName curName : String) (idx : Int)
    (hlast : sys.modes.hist.lastNonTransientMode = some lastName)
    (hlastCat : getMainModeCategory (some lastName) = .standalone)
    (hcur : sys.modes.hist.currentNonTransientMode = some curName)
    (hcurCat : getMainModeCategory (some curName) = .standalone)
    (hidx : parseInt (getIndexStr lastName) = some idx)
    (henabled : sys.hw.isEnabled = true)
    (hstandalone : sys.hw.standalone = true) :
    ∃ sys2, standaloneExitReleasedDelayed bg sys =
        some (sys2, [MidiMsg.pc (idx - 1)]) ∧
      sys2.modes.hist.currentNonTransientMode =
        sys.modes.hist.lastNonTransientMode ∧
      sys2.modes.hist.lastNonTransientMode =
        sys.modes.hist.currentNonTransientMode ∧
      sys2.modes.selectedMode = sys.modes.selectedMode ∧
      sys2.hw.standalone = true ∧
      sys2.hw.standaloneProgram = some (idx - 1) := by
  unfold standaloneExitReleasedDelayed
  rw [hlast, hcur]
  dsimp only
  rw [hlastCat, hcurCat]
  rw [if_pos (by decide)]
  rw [hidx]
  unfold HardwareComponent.setStandaloneProgram
    HardwareComponent.updateStandaloneProgram
  dsimp only
  rw [if_pos ⟨henabled, hstandalone⟩]
  exact ⟨_, rfl, rfl, rfl, rfl, hstandalone, rfl⟩

/-- C6 witness: exiting `standalone_2` back to `standalone_4` sends exactly
the program change 3. -/
theorem standaloneExit_standalone_to_standalone_witness :
    ∃ sys2, standaloneExitReleasedDelayed none
        { modes :=
            { selectedMode := some "standalone_2",
              hist :=
                { currentNonTransientMode := some "standalone_2",
                  lastNonTransientMode := some "standalone_4" },
              transitionIsModeSelect := false },
          hw :=
            { isEnabled := true, standaloneProgram := some 1,
              backlight := none, standalone := true,
              standaloneSysex := ⟨[[240, 1]], [[240, 2]], some true⟩,
              backlightSysex := ⟨[[240, 3]], [[240, 4]], none⟩ } } =
      some (sys2, [MidiMsg.pc (4 - 1)]) ∧
      sys2.modes.hist.currentNonTransientMode = some "standalone_4" ∧
      sys2.modes.hist.lastNonTransientMode = some "standalone_2" ∧
      sys2.modes.selectedMode = some "standalone_2" ∧
      sys2.hw.standalone = true ∧
      sys2.hw.standaloneProgram = some (4 - 1) := by
  obtain ⟨sys2, h1, h2, h3, h4, h5, h6⟩ :=
    standaloneExit_standalone_to_standalone none
      { modes :=
          { selectedMode := some "standalone_2",
            hist :=
              { currentNonTransientMode := some "standalone_2",
                lastNonTransientMode := some "standalone_4" },
            transitionIsModeSelect := false },
        hw :=
          { isEnabled := true, standaloneProgram := some 1,
            backlight := none, standalone := true,
            standaloneSysex := ⟨[[240, 1]], [[240, 2]], some true⟩,
            backlightSysex := ⟨[[240, 3]], [[240, 4]], none⟩ } }
      "standalone_4" "standalone_2" 4 rfl (by decide) rfl (by decide)
      (by decide) rfl rfl
  exact ⟨sys2, h1, by rw [h2], by rw [h3], h4, h5, h6⟩

/-- C7: exiting a user standalone mode towards hosted mode pushes the
transition mode (emitting the background program change while still in
standalone mode), and only on the next scheduler tick flips `standalone`
off — emitting the hosted-off sysexes — and then pushes the mode select
screen or restores the last non-transient mode; so the background program
change strictly precedes every hosted-off sysex byte. -/
theorem standaloneExit_to_hosted_ordering (sys : System) (b : Int)
    (henabled : sys.hw.isEnabled = true)
    (hstandalone : sys.hw.standalone = true)
    (hsynced : sys.hw.standaloneSysex.lastValue = some true)
    (hbgNew : some b ≠ sys.hw.standaloneProgram) :
    (pushStandaloneTransition (some b) sys).2 = [MidiMsg.pc b] ∧
    (pushStandaloneTransition (some b) sys).1.hw.standalone = true ∧
    (pushStandaloneTransition (some b) sys).1.modes.selectedMode =
      some STANDALONE_TRANSITION_MODE_NAME ∧
    (pushStandaloneTransition (some b) sys).1.modes.hist = sys.modes.hist ∧
    (finishStandaloneTransition (pushStandaloneTransition (some b) sys).1).2 =
      sys.hw.standaloneSysex.offMessages.map MidiMsg.sysex ∧
    (∀ m ∈ (finishStandaloneTransition
        (pushStandaloneTransition (some b) sys).1).2, m.isSysex = true) ∧
    (finishStandaloneTransition
      (pushStandaloneTransition (some b) sys).1).1.hw.standalone = false ∧
    (sys.modes.transitionIsModeSelect = true →
      (finishStandaloneTransition
        (pushStandaloneTransition (some b) sys).1).1.modes.selectedMode =
        some MODE_SELECT_MODE_NAME) ∧
    (∀ ln, sys.modes.transitionIsModeSelect = false →
      sys.modes.hist.lastNonTransientMode = some ln →
      ln ≠ STANDALONE_TRANSITION_MODE_NAME →
      (finishStandaloneTransition
        (pushStandaloneTransition (some b) sys).1).1.modes.selectedMode =
        some ln) := by
  have hpush : pushStandaloneTransition (some b) sys =
      ({ modes := sys.modes.enterMode STANDALONE_TRANSITION_MODE_NAME,
         hw := { sys.hw with standaloneProgram := some b } },
       [MidiMsg.pc b]) := by
    unfold pushStandaloneTransition exitStandaloneMode
      setStandaloneProgramDeduped HardwareComponent.setStandaloneProgram
      HardwareComponent.updateStandaloneProgram
    dsimp only
    rw [if_pos hbgNew, if_pos ⟨henabled, hstandalone⟩]
  have hhist : (sys.modes.enterMode STANDALONE_TRANSITION_MODE_NAME).hist =
      sys.modes.hist := doEnterMode_standalone_transition sys.modes.hist
  have hfin : (finishStandaloneTransition
      (pushStandaloneTransition (some b) sys).1).2 =
      sys.hw.standaloneSysex.offMessages.map MidiMsg.sysex := by
    rw [hpush]
    unfold finishStandaloneTransition HardwareComponent.setStandalone
      HardwareComponent.updateStandalone SysexToggleElement.setLight
      HardwareComponent.updateStandaloneProgram
    dsimp only
    rw [if_pos henabled]
    rw [hsynced]
    simp
  have hpres : (sys.modes.enterMode
      STANDALONE_TRANSITION_MODE_NAME).transitionIsModeSelect =
      sys.modes.transitionIsModeSelect := rfl
  refine ⟨by rw [hpush], by rw [hpush]; exact hstandalone,
    by rw [hpush]; rfl, by rw [hpush]; exact hhist, hfin, ?_, ?_, ?_, ?_⟩
  · intro m hm
    rw [hfin] at hm
    rcases List.mem_map.mp hm with ⟨d, -, rfl⟩
    rfl
  · rw [hpush]
    unfold finishStandaloneTransition HardwareComponent.setStandalone
      HardwareComponent.updateStandalone SysexToggleElement.setLight
      HardwareComponent.updateStandaloneProgram
    dsimp only
    rw [if_pos henabled]
  · intro hflag
    rw [hpush]
    unfold finishStandaloneTransition
    dsimp only
    rw [hpres, hflag]
    rfl
  · intro ln hflag hln hlnne
    rw [hpush]
    unfold finishStandaloneTransition
    dsimp only
    rw [hpres, hflag]
    unfold MainModesState.selectLastNonTransient
      MainModesState.selectModeOrModeSelect MainModesState.enterMode
    rw [if_neg (by decide)]
    dsimp only
    rw [doEnterMode_standalone_transition, hln]
    dsimp only
    rw [if_pos (by
      intro hcontra
      exact hlnne (by simpa using hcontra))]

/-- C7 witness: exiting `standalone_2` (long press, previous mode
`transport`) with background program 0 sends the program change first and
the hosted-off sysexes strictly after the tick. -/
theorem standaloneExit_to_hosted_ordering_witness :
    (pushStandaloneTransition (some 0)
      { modes :=
          { selectedMode := some "standalone_2",
            hist :=
              { currentNonTransientMode := some "standalone_2",
                lastNonTransientMode := some "transport" },
            transitionIsModeSelect := false },
        hw :=
          { isEnabled := true, standaloneProgram := some 1,
            backlight := none, standalone := true,
            standaloneSysex := ⟨[[240, 1]], [[240, 2]], some true⟩,
            backlightSysex := ⟨[[240, 3]], [[240, 4]], none⟩ } }).2 =
      [MidiMsg.pc 0] ∧
    (finishStandaloneTransition (pushStandaloneTransition (some 0)
      { modes :=
          { selectedMode := some "standalone_2",
            hist :=
              { currentNonTransientMode := some "standalone_2",
                lastNonTransientMode := some "transport" },
            transitionIsModeSelect := false },
        hw :=
          { isEnabled := true, standaloneProgram := some 1,
            backlight := none, standalone := true,
            standaloneSysex := ⟨[[240, 1]], [[240, 2]], some true⟩,
            backlightSysex := ⟨[[240, 3]], [[240, 4]], none⟩ } }).1).2 =
      [MidiMsg.sysex [240, 2]] ∧
    (finishStandaloneTransition (pushStandaloneTransition (some 0)
      { modes :=
          { selectedMode := some "standalone_2",
            hist :=
              { currentNonTransientMode := some "standalone_2",
                lastNonTransientMode := some "transport" },
            transitionIsModeSelect := false },
        hw :=
          { isEnabled := true, standaloneProgram := some 1,
            backlight := none, standalone := true,
            standaloneSysex := ⟨[[240, 1]], [[240, 2]], some true⟩,
            backlightSysex := ⟨[[240, 3]], [[240, 4]], none⟩ } }).1).1.modes.selectedMode =
      some "transport" := by
  obtain ⟨h1, -, -, -, h5, -, -, -, h9⟩ :=
    standaloneExit_to_hosted_ordering
      { modes :=
          { selectedMode := some "standalone_2",
            hist :=
              { currentNonTransientMode := some "standalone_2",
                lastNonTransientMode := some "transport" },
            transitionIsModeSelect := false },
        hw :=
          { isEnabled := true, standaloneProgram := some 1,
            backlight := none, standalone := true,
            standaloneSysex := ⟨[[240, 1]], [[240, 2]], some true⟩,
            backlightSysex := ⟨[[240, 3]], [[240, 4]], none⟩ } }
      0 rfl rfl rfl (by decide)
  exact ⟨h1, h5, h9 "transport" rfl rfl (by decide)⟩

/-! ## Claim theorems: identity-response timeout (C8) -/

theorem storeStateAndDisable_of_disabled (s : Supervisor)
    (h : s.selectedMode = some DISABLED_MODE_NAME) :
    storeStateAndDisable s = s := by
  unfold storeStateAndDisable
  have hc1 : ¬(s.selectedMode ≠ none ∧
      s.selectedMode ≠ some DISABLED_MODE_NAME ∧
      s.selectedMode ≠ some STANDALONE_INIT_MODE_NAME) :=
    fun hc => hc.2.1 h
  rw [if_neg hc1]
  have hc2 : ¬(s.selectedMode ≠ some DISABLED_MODE_NAME) := fun hc => hc h
  rw [if_neg hc2]

theorem storeStateAndDisable_spec (s : Supervisor) :
    (storeStateAndDisable s).selectedMode = some DISABLED_MODE_NAME ∧
    (∀ name, s.selectedMode = some name → name ≠ DISABLED_MODE_NAME →
      name ≠ STANDALONE_INIT_MODE_NAME →
      (storeStateAndDisable s).modeAfterIdentified = some name) ∧
    ((s.selectedMode = none ∨ s.selectedMode = some DISABLED_MODE_NAME ∨
        s.selectedMode = some STANDALONE_INIT_MODE_NAME) →
      (storeStateAndDisable s).modeAfterIdentified = s.modeAfterIdentified) ∧
    storeStateAndDisable (storeStateAndDisable s) = storeStateAndDisable s := by
  by_cases hc1 : s.selectedMode ≠ none ∧
      s.selectedMode ≠ some DISABLED_MODE_NAME ∧
      s.selectedMode ≠ some STANDALONE_INIT_MODE_NAME
  · have heq : storeStateAndDisable s =
        { isIdentified := s.isIdentified,
          timeoutRemaining := s.timeoutRemaining,
          selectedMode := some DISABLED_MODE_NAME,
          hist := doEnterMode DISABLED_MODE_NAME s.hist,
          modeAfterIdentified := s.selectedMode } := by
      unfold storeStateAndDisable
      rw [if_pos hc1]
      have hc2 : ({ s with modeAfterIdentified := s.selectedMode } :
          Supervisor).selectedMode ≠ some DISABLED_MODE_NAME := hc1.2.1
      rw [if_pos hc2]
    refine ⟨by rw [heq], ?_, ?_, ?_⟩
    · intro name hname _ _
      rw [heq]
      exact hname
    · intro hcase
      exfalso
      rcases hcase with h | h | h
      · exact hc1.1 h
      · exact hc1.2.1 h
      · exact hc1.2.2 h
    · exact storeStateAndDisable_of_disabled _ (by rw [heq])
  · have heq : storeStateAndDisable s =
        (if s.selectedMode ≠ some DISABLED_MODE_NAME then
          { s with
            selectedMode := some DISABLED_MODE_NAME,
            hist := doEnterMode DISABLED_MODE_NAME s.hist }
        else s) := by
      unfold storeStateAndDisable
      rw [if_neg hc1]
    by_cases hc2 : s.selectedMode ≠ some DISABLED_MODE_NAME
    · have heq2 : storeStateAndDisable s =
          { s with
            selectedMode := some DISABLED_MODE_NAME,
            hist := doEnterMode DISABLED_MODE_NAME s.hist } := by
        rw [heq, if_pos hc2]
      refine ⟨by rw [heq2], ?_, ?_, ?_⟩
      · intro name hname hnd hns
        exfalso
        exact hc1 ⟨by rw [hname]; simp, by rw [hname]; simpa using hnd,
          by rw [hname]; simpa using hns⟩
      · intro _
        rw [heq2]
      · exact storeStateAndDisable_of_disabled _ (by rw [heq2])
    · have hsel : s.selectedMode = some DISABLED_MODE_NAME := not_not.mp hc2
      have heq2 : storeStateAndDisable s = s := by rw [heq, if_neg hc2]
      refine ⟨by rw [heq2]; exact hsel, ?_, ?_, by rw [heq2, heq2]⟩
      · intro name hname hnd _
        exfalso
        rw [hsel] at hname
        have h2 : DISABLED_MODE_NAME = name := by injection hname
        exact hnd h2.symm
      · intro _
        rw [heq2]

/-- C8 counterexample: with the transient mode-select screen selected
(current non-transient mode `"transport"`), the fired timeout remembers
`"mode_select"` itself — a transient mode, and not the current
non-transient mode — for restoration. -/
theorem identityTimeout_counterexample :
    isTransientMode (some "mode_select") = true ∧
    (Supervisor.elapse 2 (onIsIdentifiedChanged 1 false
      { isIdentified := true, timeoutRemaining := none,
        selectedMode := some "mode_select",
        hist := { currentNonTransientMode := some "transport",
                  lastNonTransientMode := some "utility" },
        modeAfterIdentified := some "transport" })).modeAfterIdentified =
      some "mode_select" ∧
    some "mode_select" ≠ (some "transport" : Option String) := by
  decide

/-- C8 (amended): once `is_identified` drops, the restarted timeout waits
the full `2 × identity_request_delay` (earlier time passage only counts
down), then fires exactly once: the *selected* mode is remembered for
restoration unless it is the disabled or standalone-init mode (in which
case the stored mode is untouched), the mode stack moves to the disabled
mode, a repeated fire is a no-op, and a disabled hardware component emits
no further MIDI from any of its setters. -/
theorem identityTimeout_disables (d : Nat) (s : Supervisor) :
    ((Supervisor.elapse (2 * d)
        (onIsIdentifiedChanged d false s)).selectedMode =
      some DISABLED_MODE_NAME) ∧
    ((Supervisor.elapse (2 * d)
        (onIsIdentifiedChanged d false s)).timeoutRemaining = none) ∧
    (∀ t, t < 2 * d →
      (Supervisor.elapse t (onIsIdentifiedChanged d false s)).selectedMode =
        s.selectedMode ∧
      (Supervisor.elapse t
          (onIsIdentifiedChanged d false s)).timeoutRemaining =
        some (2 * d - t)) ∧
    (∀ name, s.selectedMode = some name → name ≠ DISABLED_MODE_NAME →
      name ≠ STANDALONE_INIT_MODE_NAME →
      (Supervisor.elapse (2 * d)
          (onIsIdentifiedChanged d false s)).modeAfterIdentified =
        some name) ∧
    ((s.selectedMode = none ∨ s.selectedMode = some DISABLED_MODE_NAME ∨
        s.selectedMode = some STANDALONE_INIT_MODE_NAME) →
      (Supervisor.elapse (2 * d)
          (onIsIdentifiedChanged d false s)).modeAfterIdentified =
        s.modeAfterIdentified) ∧
    (storeStateAndDisable
        (Supervisor.elapse (2 * d) (onIsIdentifiedChanged d false s)) =
      Supervisor.elapse (2 * d) (onIsIdentifiedChanged d false s)) ∧
    (∀ hw : HardwareComponent, hw.isEnabled = false →
      ∀ v p bl, (hw.setStandalone v).2 = [] ∧
        (hw.setStandaloneProgram p).2 = [] ∧ (hw.setBacklight bl).2 = []) := by
  have hrestart : (onIsIdentifiedChanged d false s).timeoutRemaining =
      some (2 * d) := rfl
  have hfire : Supervisor.elapse (2 * d) (onIsIdentifiedChanged d false s) =
      { storeStateAndDisable (onIsIdentifiedChanged d false s) with
        timeoutRemaining := none } := by
    unfold Supervisor.elapse
    rw [hrestart]
    dsimp only
    rw [if_neg (lt_irrefl _)]
  have hsel : (onIsIdentifiedChanged d false s).selectedMode =
      s.selectedMode := rfl
  have hafter : (onIsIdentifiedChanged d false s).modeAfterIdentified =
      s.modeAfterIdentified := rfl
  obtain ⟨hd1, hd2, hd3, hd4⟩ :=
    storeStateAndDisable_spec (onIsIdentifiedChanged d false s)
  refine ⟨?_, ?_, ?_, ?_, ?_, ?_, ?_⟩
  · rw [hfire]
    exact hd1
  · rw [hfire]
  · intro t ht
    unfold Supervisor.elapse
    rw [hrestart]
    dsimp only
    rw [if_pos ht]
    exact ⟨hsel, rfl⟩
  · intro name hname hnd hns
    rw [hfire]
    exact hd2 name (by rw [hsel, hname]) hnd hns
  · intro hcase
    rw [hfire]
    have := hd3 (by
      rcases hcase with h | h | h
      · exact Or.inl (by rw [hsel, h])
      · exact Or.inr (Or.inl (by rw [hsel, h]))
      · exact Or.inr (Or.inr (by rw [hsel, h])))
    rw [← hafter]
    exact this
  · rw [hfire]
    exact storeStateAndDisable_of_disabled _ hd1
  · intro hw hdis v p bl
    refine ⟨?_, ?_, ?_⟩
    · unfold HardwareComponent.setStandalone HardwareComponent.updateStandalone
      dsimp only
      rw [if_neg (by rw [hdis]; simp)]
    · unfold HardwareComponent.setStandaloneProgram
        HardwareComponent.updateStandaloneProgram
      dsimp only
      rw [if_neg (fun hc => by rw [hdis] at hc; simpa using hc.1)]
    · unfold HardwareComponent.setBacklight HardwareComponent.updateBacklight
      dsimp only
      rw [if_neg (by rw [hdis]; simp)]

/-- C8 witness: a concrete unidentified supervisor in `transport` mode with
delay 3; after 6 units the disabled mode is selected and `transport` stored. -/
theorem identityTimeout_disables_witness :
    (Supervisor.elapse (2 * 3) (onIsIdentifiedChanged 3 false
      { isIdentified := true, timeoutRemaining := none,
        selectedMode := some "transport",
        hist := { currentNonTransientMode := some "transport",
                  lastNonTransientMode := none },
        modeAfterIdentified := none })).selectedMode =
      some DISABLED_MODE_NAME ∧
    (Supervisor.elapse (2 * 3) (onIsIdentifiedChanged 3 false
      { isIdentified := true, timeoutRemaining := none,
        selectedMode := some "transport",
        hist := { currentNonTransientMode := some "transport",
                  lastNonTransientMode := none },
        modeAfterIdentified := none })).modeAfterIdentified =
      some "transport" :=
  ⟨(identityTimeout_disables 3
      { isIdentified := true, timeoutRemaining := none,
        selectedMode := some "transport",
        hist := { currentNonTransientMode := some "transport",
                  lastNonTransientMode := none },
        modeAfterIdentified := none }).1,
    (identityTimeout_disables 3
      { isIdentified := true, timeoutRemaining := none,
        selectedMode := some "transport",
        hist := { currentNonTransientMode := some "transport",
                  lastNonTransientMode := none },
        modeAfterIdentified := none }).2.2.2.1 "transport" rfl
      (by decide) (by decide)⟩

/-! ## Claim theorems: light group coalescing (C9) -/

theorem LightGroup.proj_propagation (target : Color)
    (q : String × LightState) :
    ((if q.2.lastColor ≠ some target then
        (q.1, { q.2 with lastColor := some target })
      else q).1,
     (if q.2.lastColor ≠ some target then
        (q.1, { q.2 with lastColor := some target })
      else q).2.lastExternalColor) = (q.1, q.2.lastExternalColor) := by
  by_cases hq : q.2.lastColor ≠ some target
  · rw [if_pos hq]
  · rw [if_neg hq]

theorem LightGroup.currentColor_map_lastColor (g : LightGroup)
    (f : String × LightState → String × LightState)
    (hf : ∀ p, (f p).2.lastExternalColor = p.2.lastExternalColor) :
    LightGroup.currentColor { lights := g.lights.map f } = g.currentColor := by
  unfold LightGroup.currentColor
  rw [List.findSome?_map]
  have : ((fun p : String × LightState =>
      match p.2.lastExternalColor with
      | some c => if c ≠ OFF then some c else none
      | none => none) ∘ f) =
      (fun p : String × LightState =>
        match p.2.lastExternalColor with
        | some c => if c ≠ OFF then some c else none
        | none => none) := by
    funext p
    show (match (f p).2.lastExternalColor with
      | some c => if c ≠ OFF then some c else none
      | none => none) = _
    rw [hf p]
  rw [this]

/-- After an external color event on a registered member, every member's
drawn color equals the group's (recomputed) effective color. -/
theorem LightGroup.onExternalColor_draws_all (g : LightGroup) (name : String)
    (c : Color) (hreg : (g.lights.lookup name).isSome = true) :
    ∀ p ∈ (g.onExternalColor name c).lights,
      p.2.lastColor = some (g.onExternalColor name c).currentColor := by
  unfold LightGroup.onExternalColor
  rw [if_pos hreg]
  intro p hp
  rw [LightGroup.currentColor_map_lastColor]
  · dsimp only at hp
    rcases List.mem_map.mp hp with ⟨q, -, rfl⟩
    by_cases hq : q.2.lastColor ≠ some (LightGroup.currentColor
        { lights := g.lights.map (fun p =>
            if p.1 = name then
              (p.1, { lastExternalColor := some c, lastColor := some c })
            else p) })
    · rw [if_pos hq]
    · rw [if_neg hq]
      exact not_not.mp hq
  · intro q
    by_cases hq : q.2.lastColor ≠ some (LightGroup.currentColor
        { lights := g.lights.map (fun p =>
            if p.1 = name then
              (p.1, { lastExternalColor := some c, lastColor := some c })
            else p) })
    · rw [if_pos hq]
    · rw [if_neg hq]

/-- A group in which every member is drawn with the effective color keeps
that property across any further external events. -/
theorem LightGroup.runExternal_draws_all (events : List (String × Color)) :
    ∀ g : LightGroup,
      (∀ p ∈ g.lights, p.2.lastColor = some g.currentColor) →
      ∀ p ∈ (g.runExternal events).lights,
        p.2.lastColor = some (g.runExternal events).currentColor := by
  induction events with
  | nil =>
    intro g hinv
    exact hinv
  | cons e rest ih =>
    intro g hinv
    have hstep : ∀ p ∈ (g.onExternalColor e.1 e.2).lights,
        p.2.lastColor = some (g.onExternalColor e.1 e.2).currentColor := by
      by_cases hr : (g.lights.lookup e.1).isSome = true
      · exact LightGroup.onExternalColor_draws_all g e.1 e.2 hr
      · have hid : g.onExternalColor e.1 e.2 = g := by
          unfold LightGroup.onExternalColor
          rw [if_neg hr]
        rw [hid]
        exact hinv
    have hrun : g.runExternal (e :: rest) =
        (g.onExternalColor e.1 e.2).runExternal rest := rfl
    rw [hrun]
    exact ih (g.onExternalColor e.1 e.2) hstep

/-- C9: after an external `send_color` on a registered member followed by
any further external events, every member of the group is drawn with the
group's effective color — the first non-off externally-set color in
registration order; propagation changes only drawn colors, never another
member's externally-set color; and in the 3-member Off, Red, Off scenario
all three members render red and a further Off on the third member leaves
the effective color red. -/
theorem lightGroup_coalescing (g : LightGroup) (name : String) (c : Color)
    (events : List (String × Color))
    (hreg : (g.lights.lookup name).isSome = true) :
    (∀ p ∈ ((g.onExternalColor name c).runExternal events).lights,
      p.2.lastColor =
        some ((g.onExternalColor name c).runExternal events).currentColor) ∧
    ((g.onExternalColor name c).lights.map
        (fun p => (p.1, p.2.lastExternalColor)) =
      g.lights.map (fun p =>
        (p.1, if p.1 = name then some c else p.2.lastExternalColor))) ∧
    (LightGroup.currentColor
        (LightGroup.runExternal
          { lights := [("m1", {}), ("m2", {}), ("m3", {})] }
          [("m1", OFF), ("m2", RED_ON), ("m3", OFF)]) = RED_ON ∧
      (∀ p ∈ (LightGroup.runExternal
          { lights := [("m1", {}), ("m2", {}), ("m3", {})] }
          [("m1", OFF), ("m2", RED_ON), ("m3", OFF)]).lights,
        p.2.lastColor = some RED_ON) ∧
      LightGroup.currentColor
        (LightGroup.runExternal
          { lights := [("m1", {}), ("m2", {}), ("m3", {})] }
          [("m1", OFF), ("m2", RED_ON), ("m3", OFF), ("m3", OFF)]) =
        RED_ON) := by
  refine ⟨?_, ?_, by decide, by decide, by decide⟩
  · exact LightGroup.runExternal_draws_all events (g.onExternalColor name c)
      (LightGroup.onExternalColor_draws_all g name c hreg)
  · unfold LightGroup.onExternalColor
    rw [if_pos hreg]
    dsimp only
    rw [List.map_map, List.map_map]
    apply List.map_congr_left
    intro p hp
    dsimp only [Function.comp]
    rw [LightGroup.proj_propagation]
    by_cases hname : p.1 = name
    · simp [hname]
    · simp [hname]

/-- C9 witness: the general coalescing facts applied to the concrete
3-member group with the Off, Red, Off events. -/
theorem lightGroup_coalescing_witness :
    ((({ lights := [("m1", {}), ("m2", {}), ("m3", {})] } :
        LightGroup).lights.lookup "m1").isSome = true) ∧
    (∀ p ∈ ((LightGroup.onExternalColor
        { lights := [("m1", {}), ("m2", {}), ("m3", {})] } "m1"
        OFF).runExternal [("m2", RED_ON), ("m3", OFF)]).lights,
      p.2.lastColor = some ((LightGroup.onExternalColor
        { lights := [("m1", {}), ("m2", {}), ("m3", {})] } "m1"
        OFF).runExternal [("m2", RED_ON), ("m3", OFF)]).currentColor) :=
  ⟨by decide,
    (lightGroup_coalescing { lights := [("m1", {}), ("m2", {}), ("m3", {})] }
      "m1" OFF [("m2", RED_ON), ("m3", OFF)] (by decide)).1⟩

/-! ## Claim theorems: adjacent-lockout mutual exclusion on the grid (C4) -/

theorem KeySafetyManager.lookup_mem (m : KeySafetyManager) (id : String)
    (st : InputLockState) (h : m.lookup id = some st) : (id, st) ∈ m.locks := by
  unfold KeySafetyManager.lookup at h
  cases hf : m.locks.find? (fun p => decide (p.1 = id)) with
  | none =>
    rw [hf] at h
    exact absurd h (by simp)
  | some q =>
    rw [hf] at h
    simp only [Option.map_some', Option.some.injEq] at h
    have hm := List.mem_of_find?_eq_some hf
    have hq : q.1 = id := by simpa using List.find?_some hf
    have : q = (id, st) := by
      rw [Prod.ext_iff]
      exact ⟨hq, h⟩
    rw [← this]
    exact hm

/-- The directly-written grid table is exactly what the `create_input_lock`
calls build (in particular no duplicate-id error is raised). -/
theorem buildGridManager_ok : buildGridManager = .ok gridManager := by rfl

theorem grid_total_init : ∀ r c d, r < NUM_ROWS → c < NUM_COLS →
    d ∈ keyDirections → gridManagerAdjacent.lookup (lockId r c d) =
      some ⟨false, friendIdsFor r c, enemyIdsFor r c⟩ := by
  have hall : ∀ r ∈ List.range NUM_ROWS, ∀ c ∈ List.range NUM_COLS,
      ∀ d ∈ keyDirections, gridManagerAdjacent.lookup (lockId r c d) =
        some ⟨false, friendIdsFor r c, enemyIdsFor r c⟩ := by decide
  intro r c d hr hc hd
  exact hall r (List.mem_range.mpr hr) c (List.mem_range.mpr hc) d hd

theorem grid_irrefl_init :
    ∀ p ∈ gridManagerAdjacent.locks, p.1 ∉ p.2.enemyIds := by decide

theorem grid_symm_init : ∀ p1 ∈ gridManagerAdjacent.locks,
    ∀ p2 ∈ gridManagerAdjacent.locks,
      p2.1 ∈ p1.2.enemyIds → p1.1 ∈ p2.2.enemyIds := by decide

theorem grid_unacquired_init :
    ∀ p ∈ gridManagerAdjacent.locks, p.2.isAcquired = false := by decide

theorem gridInv_init : GridInv gridManagerAdjacent := by
  refine ⟨rfl, ?_, ?_, ?_, ?_⟩
  · intro r c d hr hc hd
    exact ⟨false, grid_total_init r c d hr hc hd⟩
  · intro id st h
    exact grid_irrefl_init (id, st) (KeySafetyManager.lookup_mem _ _ _ h)
  · intro id1 st1 id2 st2 h1 h2 hmem
    exact grid_symm_init (id1, st1) (KeySafetyManager.lookup_mem _ _ _ h1)
      (id2, st2) (KeySafetyManager.lookup_mem _ _ _ h2) hmem
  · intro id1 st1 id2 st2 h1 h2 ha1 ha2
    exfalso
    have := grid_unacquired_init (id1, st1)
      (KeySafetyManager.lookup_mem _ _ _ h1)
    rw [this] at ha1
    exact absurd ha1 (by simp)

theorem gridInv_setAcquired (m : KeySafetyManager) (hInv : GridInv m)
    (id : String) (b : Bool)
    (hsafe : b = true → ∀ st, m.lookup id = some st →
      ∀ e ∈ st.enemyIds, ∀ est, m.lookup e = some est →
        est.isAcquired = false) :
    GridInv (m.setAcquired id b) := by
  refine ⟨hInv.strat, ?_, ?_, ?_, ?_⟩
  · intro r c d hr hc hd
    obtain ⟨acq, h⟩ := hInv.total r c d hr hc hd
    rw [KeySafetyManager.lookup_setAcquired]
    by_cases hx : lockId r c d = id
    · rw [if_pos hx, h]
      exact ⟨b, rfl⟩
    · rw [if_neg hx]
      exact ⟨acq, h⟩
  · intro x st' h'
    rw [KeySafetyManager.lookup_setAcquired] at h'
    by_cases hx : x = id
    · rw [if_pos hx] at h'
      rcases Option.map_eq_some'.mp h' with ⟨st, hst, rfl⟩
      exact hInv.irrefl x st hst
    · rw [if_neg hx] at h'
      exact hInv.irrefl x st' h'
  · intro id1 st1' id2 st2' h1' h2' hmem
    rw [KeySafetyManager.lookup_setAcquired] at h1' h2'
    have hget : ∀ x st', (if x = id then
        (m.lookup x).map (fun st => { st with isAcquired := b })
        else m.lookup x) = some st' →
        ∃ st, m.lookup x = some st ∧ st.friendIds = st'.friendIds ∧
          st.enemyIds = st'.enemyIds := by
      intro x st' h'
      by_cases hx : x = id
      · rw [if_pos hx] at h'
        rcases Option.map_eq_some'.mp h' with ⟨st, hst, rfl⟩
        exact ⟨st, hst, rfl, rfl⟩
      · rw [if_neg hx] at h'
        exact ⟨st', h', rfl, rfl⟩
    obtain ⟨st1, hl1, -, he1⟩ := hget id1 st1' h1'
    obtain ⟨st2, hl2, -, he2⟩ := hget id2 st2' h2'
    rw [← he2]
    rw [← he1] at hmem
    exact hInv.symm id1 st1 id2 st2 hl1 hl2 hmem
  · intro id1 st1' id2 st2' h1' h2' ha1 ha2
    rw [KeySafetyManager.lookup_setAcquired] at h1' h2'
    cases hb : b with
    | false =>
      subst hb
      have hold : ∀ x st', (if x = id then
          (m.lookup x).map (fun st => { st with isAcquired := false })
          else m.lookup x) = some st' → st'.isAcquired = true →
          m.lookup x = some st' := by
        intro x st' h' ha
        by_cases hx : x = id
        · rw [if_pos hx] at h'
          rcases Option.map_eq_some'.mp h' with ⟨st, hst, rfl⟩
          exact absurd ha (by simp)
        · rw [if_neg hx] at h'
          exact h'
      exact hInv.noEnemyPair id1 st1' id2 st2' (hold id1 st1' h1' ha1)
        (hold id2 st2' h2' ha2) ha1 ha2
    | true =>
      subst hb
      have hsafe2 := hsafe rfl
      by_cases hx1 : id1 = id
      · -- the newly acquired lock: its enemies were all unacquired
        subst hx1
        rw [if_pos rfl] at h1'
        rcases Option.map_eq_some'.mp h1' with ⟨st1, hst1, rfl⟩
        by_cases hx2 : id2 = id1
        · subst hx2
          exact hInv.irrefl id2 st1 hst1
        · rw [if_neg hx2] at h2'
          intro hmem
          have := hsafe2 st1 hst1 id2 hmem st2' h2'
          rw [this] at ha2
          exact absurd ha2 (by simp)
      · rw [if_neg hx1] at h1'
        by_cases hx2 : id2 = id
        · -- an old acquired lock against the newly acquired one: symmetry
          subst hx2
          rw [if_pos rfl] at h2'
          rcases Option.map_eq_some'.mp h2' with ⟨st2, hst2, rfl⟩
          intro hmem
          have hmem2 : id1 ∈ st2.enemyIds :=
            hInv.symm id1 st1' id2 st2 h1' hst2 hmem
          have := hsafe2 st2 hst2 id1 hmem2 st1' h1'
          rw [this] at ha1
          exact absurd ha1 (by simp)
        · rw [if_neg hx2] at h2'
          exact hInv.noEnemyPair id1 st1' id2 st2' h1' h2' ha1 ha2

theorem gridInv_step (m : KeySafetyManager) (hInv : GridInv m)
    (op : LockOp) : GridInv (m.step op) := by
  cases op with
  | release id =>
    show GridInv (m.setAcquired id false)
    exact gridInv_setAcquired m hInv id false (by
      intro h
      exact absurd h (by simp))
  | acquire id =>
    show GridInv (match m.acquire id with
      | some r => r.1
      | none => m)
    cases hl : m.lookup id with
    | none =>
      have hacq : m.acquire id = none := by
        unfold KeySafetyManager.acquire
        rw [hl]
      rw [hacq]
      exact hInv
    | some st =>
      by_cases hacq : st.isAcquired = true
      · have h2 : m.acquire id = some (m, true) := by
          unfold KeySafetyManager.acquire
          rw [hl]
          dsimp only
          rw [if_pos hacq]
        rw [h2]
        exact hInv
      · cases hca : m.canAcquire id with
        | none =>
          have h2 : m.acquire id = none := by
            unfold KeySafetyManager.acquire
            rw [hl]
            dsimp only
            rw [if_neg hacq, hca]
            rfl
          rw [h2]
          exact hInv
        | some b =>
          have h2 : m.acquire id = some (m.setAcquired id b, b) := by
            unfold KeySafetyManager.acquire
            rw [hl]
            dsimp only
            rw [if_neg hacq, hca]
            rfl
          rw [h2]
          apply gridInv_setAcquired m hInv id b
          intro hb st0 hl0 e he est hle
          subst hb
          rw [hl0] at hl
          have hst0 : st0 = st := by injection hl
          subst hst0
          -- under adjacent_lockout, a true result means no enemy acquired
          unfold KeySafetyManager.canAcquire at hca
          rw [hl0, hInv.strat] at hca
          rcases Option.map_eq_some'.mp hca with ⟨bs, hbs, hval⟩
          have hanyfalse : bs.any (fun b => b) = false := by
            cases h3 : bs.any (fun b => b) with
            | false => rfl
            | true =>
              rw [h3] at hval
              exact absurd hval (by simp)
          by_contra hne
          have hacq2 : est.isAcquired = true := by
            cases h4 : est.isAcquired with
            | true => rfl
            | false => exact absurd h4 hne
          have := (acquiredFlags_any_iff m st0.enemyIds bs hbs).mpr
            ⟨e, he, est, hle, hacq2⟩
          rw [this] at hanyfalse
          exact absurd hanyfalse (by simp)

theorem gridInv_run (ops : List LockOp) :
    GridInv (gridManagerAdjacent.run ops) := by
  unfold KeySafetyManager.run
  induction ops using List.reverseRecOn with
  | nil => exact gridInv_init
  | append_singleton ops op ih =>
    rw [List.foldl_append]
    exact gridInv_step _ ih op

theorem mem_intRange (a b x : Int) (h1 : a ≤ x) (h2 : x < b) :
    x ∈ intRange a b := by
  have heq : intRange a b = Int.range a b := rfl
  rw [heq, Int.mem_range_iff]
  exact ⟨h1, h2⟩

theorem mem_enemyIdsFor (r1 c1 r2 c2 d : Nat) (hr2 : r2 < NUM_ROWS)
    (hc2 : c2 < NUM_COLS) (hd : d ∈ keyDirections)
    (hadj : adjacentKeys r1 c1 r2 c2) :
    lockId r2 c2 d ∈ enemyIdsFor r1 c1 := by
  obtain ⟨hne, hr, hc⟩ := hadj
  unfold enemyIdsFor
  rw [List.mem_flatMap]
  refine ⟨(r2 : Int), mem_intRange _ _ _ (by omega) (by omega), ?_⟩
  rw [List.mem_flatMap]
  refine ⟨(c2 : Int), mem_intRange _ _ _ (by omega) (by omega), ?_⟩
  rw [if_pos ?_]
  · rw [List.mem_map]
    refine ⟨d, hd, ?_⟩
    have h1 : ((r2 : Int)).toNat = r2 := Int.toNat_natCast r2
    have h2 : ((c2 : Int)).toNat = c2 := Int.toNat_natCast c2
    rw [h1, h2]
  · refine ⟨by omega, ?_, by omega, ?_, ?_⟩
    · show (r2 : Int) < (NUM_ROWS : Nat)
      exact_mod_cast hr2
    · show (c2 : Int) < (NUM_COLS : Nat)
      exact_mod_cast hc2
    · intro hcon
      apply hne
      rw [Prod.mk.injEq]
      constructor
      · omega
      · omega

/-- C4: with the strategy fixed at `adjacent_lockout`, after any sequence of
acquire/release calls from the all-released grid state, no two 8-adjacent
keys both hold an acquired lock; meanwhile the four direction locks of one
key (mutual friends) and locks of non-adjacent keys can all be acquired
simultaneously, as the concrete run shows. -/
theorem adjacent_lockout_mutual_exclusion (ops : List LockOp)
    (r1 c1 d1 r2 c2 d2 : Nat) (hr1 : r1 < NUM_ROWS) (hc1 : c1 < NUM_COLS)
    (hd1 : d1 ∈ keyDirections) (hr2 : r2 < NUM_ROWS) (hc2 : c2 < NUM_COLS)
    (hd2 : d2 ∈ keyDirections) (hadj : adjacentKeys r1 c1 r2 c2) :
    (¬((∃ st1, (gridManagerAdjacent.run ops).lookup (lockId r1 c1 d1) =
          some st1 ∧ st1.isAcquired = true) ∧
       (∃ st2, (gridManagerAdjacent.run ops).lookup (lockId r2 c2 d2) =
          some st2 ∧ st2.isAcquired = true))) ∧
    (∀ d, d ∈ keyDirections → lockId 0 0 d ∈ friendIdsFor 0 0) ∧
    (∀ id ∈ ([lockId 0 0 0, lockId 0 0 1, lockId 0 0 2, lockId 0 0 3,
        lockId 0 2 0] : List String),
      ∃ st, (gridManagerAdjacent.run
          [LockOp.acquire (lockId 0 0 0), LockOp.acquire (lockId 0 0 1),
           LockOp.acquire (lockId 0 0 2), LockOp.acquire (lockId 0 0 3),
           LockOp.acquire (lockId 0 2 0)]).lookup id = some st ∧
        st.isAcquired = true) := by
  refine ⟨?_, by decide, by decide⟩
  rintro ⟨⟨st1, hl1, ha1⟩, ⟨st2, hl2, ha2⟩⟩
  have hInv := gridInv_run ops
  obtain ⟨acq1, hl1b⟩ := hInv.total r1 c1 d1 hr1 hc1 hd1
  have hst1 : st1 = ⟨acq1, friendIdsFor r1 c1, enemyIdsFor r1 c1⟩ := by
    rw [hl1] at hl1b
    injection hl1b
  have hmem : lockId r2 c2 d2 ∈ st1.enemyIds := by
    rw [hst1]
    exact mem_enemyIdsFor r1 c1 r2 c2 d2 hr2 hc2 hd2 hadj
  exact hInv.noEnemyPair (lockId r1 c1 d1) st1 (lockId r2 c2 d2) st2
    hl1 hl2 ha1 ha2 hmem

/-- C4 witness: keys (0,0) and (0,1) are adjacent, and after acquiring the
up lock of key (0,0) the up lock of key (0,1) cannot also be acquired. -/
theorem adjacent_lockout_mutual_exclusion_witness :
    (0 < NUM_ROWS ∧ 0 < NUM_COLS ∧ 1 < NUM_COLS ∧
      (0 : Nat) ∈ keyDirections ∧ adjacentKeys 0 0 0 1) ∧
    ¬((∃ st1, (gridManagerAdjacent.run
          [LockOp.acquire (lockId 0 0 0),
           LockOp.acquire (lockId 0 1 0)]).lookup (lockId 0 0 0) =
          some st1 ∧ st1.isAcquired = true) ∧
      (∃ st2, (gridManagerAdjacent.run
          [LockOp.acquire (lockId 0 0 0),
           LockOp.acquire (lockId 0 1 0)]).lookup (lockId 0 1 0) =
          some st2 ∧ st2.isAcquired = true)) :=
  ⟨by decide,
    (adjacent_lockout_mutual_exclusion
      [LockOp.acquire (lockId 0 0 0), LockOp.acquire (lockId 0 1 0)]
      0 0 0 0 1 0 (by decide) (by decide) (by decide) (by decide)
      (by decide) (by decide) (by decide)).1⟩

end ModeStep
